import Mathlib

/-!
Verification development for src/app.py of the chitra repository
(a Streamlit app: DeepSeek-based movie recommendations, enriched with
TMDB poster/year data).

The Python source is embedded shallowly:

* JSON values are the inductive `Json` (JSON numbers are modelled as
  rationals; Python distinguishes int/float, which no claim exercises).
* Python dictionary / list / string primitives (`d[k]`, `l[0]`, `.get`,
  `in`, `[:4]`, truthiness, `str()`) are modelled by `pySubscript`,
  `pyIndexZero`, `pyGet`, `pyContains`, `pySliceTo4`, `Json.truthy`,
  `pyStr`, each raising the same exception class Python raises on the
  same shapes (`PyExn`).
* Network effects are environments: each DeepSeek POST (one per loop
  iteration, indexed by `retry_count`) yields a `DSAttempt`; each TMDB
  GET (one per recommendation, indexed by position) yields a `TmdbNet`.
* Streamlit / console output is an ordered `Effect` trace; each
  constructor corresponds to one output site of the source (line
  numbers in comments).

A note on the source text: app.py as committed indents with U+00A0
characters and its try/except/else lines sit at inconsistent depths
(the innermost `try` of get_movie_recommendations has its
`except json.JSONDecodeError` two columns deeper than the `try`), so
the file is not directly tokenizable; the embedding follows the block
structure that the handlers' own comments document ("Innermost JSON
Error Handling - for api_content parsing" pairs with the innermost
`try`, the dangling `else` at line 171 with `if 'choices' ...`, the
outer `except json.JSONDecodeError` at line 181 with `response.json()`).
-/

namespace Chitra

/-- JSON values (and, simultaneously, the Python objects the app
manipulates, which are all JSON-shaped). Objects are association
lists in insertion order, mirroring Python dicts. A number token is
kept as the exact decimal `mant * 10 ^ exp10` it was written as,
unnormalized (Python separates int/float and normalizes floats;
no claim compares numbers, only their truthiness matters). -/
inductive Json where
  | null
  | bool (b : Bool)
  | num (mant : Int) (exp10 : Int)
  | str (s : String)
  | arr (xs : List Json)
  | obj (kvs : List (String × Json))

/-- Python truthiness (`if x:`) for JSON-shaped values. -/
def Json.truthy : Json → Bool
  | .null => false
  | .bool b => b
  | .num m _ => decide (m ≠ 0)
  | .str s => decide (s ≠ "")
  | .arr xs => !xs.isEmpty
  | .obj kvs => !kvs.isEmpty

/-- Exception classes the embedded code can raise (uncaught Python
exceptions escaping to the caller). -/
inductive PyExn where
  | keyError
  | typeError
  | attributeError
  | indexError
  | nameError
deriving DecidableEq

/-- First-match association-list lookup (Python dicts have unique keys,
so first-match equals dict lookup on every dict the code builds). -/
def jsonLookup : List (String × Json) → String → Option Json
  | [], _ => none
  | (k, v) :: rest, key => if k = key then some v else jsonLookup rest key

/-- `{**d, key: v}`: replace `key` in place if present (Python dicts keep
the original insertion position on overwrite), else append. -/
def setPair : List (String × Json) → String → Json → List (String × Json)
  | [], key, v => [(key, v)]
  | (k, w) :: rest, key, v =>
      if k = key then (key, v) :: rest else (k, w) :: setPair rest key v

/-- Python `d[key]` with a string key: KeyError on a dict without the
key, TypeError on any non-dict (lists and strings reject string
subscripts). -/
def pySubscript : Json → String → Except PyExn Json
  | .obj kvs, key =>
      match jsonLookup kvs key with
      | some v => Except.ok v
      | none => Except.error PyExn.keyError
  | _, _ => Except.error PyExn.typeError

/-- Python `x[0]`: list indexing, string indexing (a 1-character
string), KeyError for dicts (the app builds only string-keyed dicts),
TypeError otherwise. -/
def pyIndexZero : Json → Except PyExn Json
  | .arr [] => Except.error PyExn.indexError
  | .arr (x :: _) => Except.ok x
  | .str s =>
      match s.data with
      | [] => Except.error PyExn.indexError
      | c :: _ => Except.ok (Json.str (String.mk [c]))
  | .obj _ => Except.error PyExn.keyError
  | _ => Except.error PyExn.typeError

/-- Python `x.get(key, default)`: AttributeError unless `x` is a dict. -/
def pyGet : Json → String → Json → Except PyExn Json
  | .obj kvs, key, dflt => Except.ok ((jsonLookup kvs key).getD dflt)
  | _, _, _ => Except.error PyExn.attributeError

/-- Is `needle` a contiguous subsequence of `hay` (Python `sub in str`)? -/
def containsSeq (needle : List Char) : List Char → Bool
  | [] => needle.isEmpty
  | c :: cs => needle.isPrefixOf (c :: cs) || containsSeq needle cs

/-- Python `key in x` for a string key: dict key test, list membership
test (a string equals only an equal string), substring test on strings,
TypeError otherwise. -/
def pyContains : Json → String → Except PyExn Bool
  | .obj kvs, key => Except.ok (jsonLookup kvs key).isSome
  | .arr xs, key =>
      Except.ok (xs.any fun x =>
        match x with
        | .str s => decide (s = key)
        | _ => false)
  | .str s, key => Except.ok (containsSeq key.data s.data)
  | _, _ => Except.error PyExn.typeError

/-- Python `x[:4]`: slices strings and lists, TypeError otherwise. -/
def pySliceTo4 : Json → Except PyExn Json
  | .str s => Except.ok (Json.str (String.mk (s.data.take 4)))
  | .arr xs => Except.ok (Json.arr (xs.take 4))
  | _ => Except.error PyExn.typeError

mutual
/-- Python `repr()` of a JSON-shaped value (string escaping inside
nested reprs is elided; no claim depends on it). -/
def pyRepr : Json → String
  | .null => "None"
  | .bool b => if b then "True" else "False"
  | .num m e => if e = 0 then toString m else toString m ++ "e" ++ toString e
  | .str s => "\x27" ++ s ++ "\x27"
  | .arr xs => "[" ++ pyReprList xs ++ "]"
  | .obj kvs => "\x7b" ++ pyReprObj kvs ++ "\x7d"

def pyReprList : List Json → String
  | [] => ""
  | [x] => pyRepr x
  | x :: xs => pyRepr x ++ ", " ++ pyReprList xs

def pyReprObj : List (String × Json) → String
  | [] => ""
  | [(k, v)] => "\x27" ++ k ++ "\x27: " ++ pyRepr v
  | (k, v) :: kvs => "\x27" ++ k ++ "\x27: " ++ pyRepr v ++ ", " ++ pyReprObj kvs
end

/-- Python `str()` (used by f-string interpolation): strings verbatim,
otherwise `repr`. -/
def pyStr (j : Json) : String :=
  match j with
  | .str s => s
  | _ => pyRepr j

/-- Characters Python `str.strip()` removes (the ASCII ones; the app
never meets non-ASCII whitespace). -/
def isStripChar (c : Char) : Bool :=
  c = ' ' || c = '\x09' || c = '\x0a' || c = '\x0d' || c = '\x0b' || c = '\x0c'

/-- Python `str.strip()` on the character list. -/
def pyStrip (cs : List Char) : List Char :=
  ((cs.dropWhile isStripChar).reverse.dropWhile isStripChar).reverse

/-- Worker for `pyReplace`: when `skip = n+1` the previous match is
still being consumed; at `skip = 0` try to match `pat` at the current
position, emitting `rep` and skipping the rest of the pattern on a
match (left-to-right, non-overlapping, exactly Python `str.replace`
for a non-empty pattern). -/
def replaceGo (pat rep : List Char) : Nat → List Char → List Char
  | _, [] => []
  | n + 1, _ :: cs => replaceGo pat rep n cs
  | 0, c :: cs =>
      if pat.isPrefixOf (c :: cs) then rep ++ replaceGo pat rep (pat.length - 1) cs
      else c :: replaceGo pat rep 0 cs

/-- Python `s.replace(pat, rep)` for a non-empty pattern. -/
def pyReplace (pat rep cs : List Char) : List Char :=
  replaceGo pat rep 0 cs

/-- The backtick character. -/
def btick : Char := Char.ofNat 96

/-- Line 136: `api_content.replace("`json", "").replace("`", "").strip()`. -/
def strip_wrappers (s : String) : String :=
  String.mk (pyStrip (pyReplace [btick] [] (pyReplace "`json".data [] s.data)))

/-! ### A model of `json.loads`

Recursive-descent parser for the JSON grammar Python's `json.loads`
accepts (strict mode). Deviations, none observable by any claim:
numbers land in one `Rat`-valued constructor (Python separates
int/float), `NaN`/`Infinity` literals are rejected, control characters
inside strings are not rejected, and `\uXXXX` escapes do not pair
surrogates. The numeric fuel only bounds recursion depth; since every
recursive step consumes at least one input character per two fuel
units, `2*length+2` can never be exhausted on the way to a successful
parse. -/

/-- JSON whitespace (the four characters `json.loads` skips). -/
def isJsonWs (c : Char) : Bool :=
  c = ' ' || c = '\x09' || c = '\x0a' || c = '\x0d'

def skipWs : List Char → List Char
  | [] => []
  | c :: cs => if isJsonWs c then skipWs cs else c :: cs

def hexDigit : Char → Option Nat
  | c =>
      if '0' ≤ c ∧ c ≤ '9' then some (c.toNat - 48)
      else if 'a' ≤ c ∧ c ≤ 'f' then some (c.toNat - 87)
      else if 'A' ≤ c ∧ c ≤ 'F' then some (c.toNat - 55)
      else none

/-- Body of a JSON string after the opening quote; returns the decoded
characters and the input after the closing quote. -/
def parseStrBody : Nat → List Char → Option (List Char × List Char)
  | 0, _ => none
  | _ + 1, [] => none
  | fuel + 1, c :: cs =>
      if c = '\x22' then some ([], cs)
      else if c = '\x5c' then
        match cs with
        | [] => none
        | e :: cs2 =>
            let esc : Option (Char × List Char) :=
              if e = '\x22' then some ('\x22', cs2)
              else if e = '\x5c' then some ('\x5c', cs2)
              else if e = '/' then some ('/', cs2)
              else if e = 'b' then some ('\x08', cs2)
              else if e = 'f' then some ('\x0c', cs2)
              else if e = 'n' then some ('\x0a', cs2)
              else if e = 'r' then some ('\x0d', cs2)
              else if e = 't' then some ('\x09', cs2)
              else if e = 'u' then
                match cs2 with
                | h1 :: h2 :: h3 :: h4 :: cs3 =>
                    match hexDigit h1, hexDigit h2, hexDigit h3, hexDigit h4 with
                    | some a, some b, some c2, some d =>
                        some (Char.ofNat (((a * 16 + b) * 16 + c2) * 16 + d), cs3)
                    | _, _, _, _ => none
                | _ => none
              else none
            match esc with
            | none => none
            | some (ch, rest) =>
                match parseStrBody fuel rest with
                | some (acc, r2) => some (ch :: acc, r2)
                | none => none
      else
        match parseStrBody fuel cs with
        | some (acc, r2) => some (c :: acc, r2)
        | none => none

def takeDigits : List Char → List Char × List Char
  | [] => ([], [])
  | c :: cs =>
      if c.isDigit then
        let (ds, r) := takeDigits cs
        (c :: ds, r)
      else ([], c :: cs)

def digitsToNat (ds : List Char) : Nat :=
  ds.foldl (fun acc c => acc * 10 + (c.toNat - 48)) 0

/-- JSON number: `-? int frac? exp?` with the strict leading-zero rule,
returned as the exact decimal pair (mantissa, exponent of 10). -/
def parseNumber (cs : List Char) : Option ((Int × Int) × List Char) :=
  let (neg, cs1) :=
    match cs with
    | '-' :: r => (true, r)
    | _ => (false, cs)
  let (ip, cs2) := takeDigits cs1
  if ip.isEmpty then none
  else if ip.length > 1 ∧ ip.headD '0' = '0' then none
  else
    let (fp, cs3) :=
      match cs2 with
      | '.' :: r =>
          let (ds, r2) := takeDigits r
          (some ds, r2)
      | _ => (none, cs2)
    match fp with
    | some [] => none
    | _ =>
      let (ex, cs4) :=
        match cs3 with
        | 'e' :: r => (some r, r)
        | 'E' :: r => (some r, r)
        | _ => (none, cs3)
      let expParsed : Option (Option (Bool × List Char) × List Char) :=
        match ex with
        | none => some (none, cs4)
        | some r =>
            let (eneg, r2) :=
              match r with
              | '-' :: rr => (true, rr)
              | '+' :: rr => (false, rr)
              | _ => (false, r)
            let (eds, r3) := takeDigits r2
            if eds.isEmpty then none else some (some (eneg, eds), r3)
      match expParsed with
      | none => none
      | some (einfo, rest) =>
          let fracDigits := (fp.getD []).length
          let mantNat : Nat := digitsToNat ip * 10 ^ fracDigits + digitsToNat (fp.getD [])
          let mant : Int := if neg then -(mantNat : Int) else (mantNat : Int)
          let e10 : Int :=
            (match einfo with
             | none => (0 : Int)
             | some (eneg, eds) =>
                 if eneg then -(digitsToNat eds : Int) else (digitsToNat eds : Int))
              - (fracDigits : Int)
          some ((mant, e10), rest)

mutual
/-- One JSON value, leading whitespace allowed. -/
def parseVal : Nat → List Char → Option (Json × List Char)
  | 0, _ => none
  | fuel + 1, cs =>
      match skipWs cs with
      | [] => none
      | c :: rest =>
          if c = '\x22' then
            match parseStrBody (rest.length + 1) rest with
            | some (chars, r) => some (Json.str (String.mk chars), r)
            | none => none
          else if c = 't' then
            match rest with
            | 'r' :: 'u' :: 'e' :: r => some (Json.bool true, r)
            | _ => none
          else if c = 'f' then
            match rest with
            | 'a' :: 'l' :: 's' :: 'e' :: r => some (Json.bool false, r)
            | _ => none
          else if c = 'n' then
            match rest with
            | 'u' :: 'l' :: 'l' :: r => some (Json.null, r)
            | _ => none
          else if c = '[' then
            match skipWs rest with
            | ']' :: r => some (Json.arr [], r)
            | cs2 =>
                match parseElems fuel cs2 with
                | some (vs, r) => some (Json.arr vs, r)
                | none => none
          else if c = Char.ofNat 123 then
            match skipWs rest with
            | c2 :: r =>
                if c2 = Char.ofNat 125 then some (Json.obj [], r)
                else
                  match parseMembers fuel (c2 :: r) with
                  | some (pairs, r2) =>
                      some (Json.obj (pairs.foldl (fun acc p => setPair acc p.1 p.2) []), r2)
                  | none => none
            | [] => none
          else
            match parseNumber (c :: rest) with
            | some ((m, e), r) => some (Json.num m e, r)
            | none => none

/-- `value ( , value )* ]` — the non-empty tail of a JSON array. -/
def parseElems : Nat → List Char → Option (List Json × List Char)
  | 0, _ => none
  | fuel + 1, cs =>
      match parseVal fuel cs with
      | none => none
      | some (v, r) =>
          match skipWs r with
          | ',' :: r2 =>
              match parseElems fuel r2 with
              | some (vs, r3) => some (v :: vs, r3)
              | none => none
          | ']' :: r2 => some ([v], r2)
          | _ => none

/-- `"key" : value ( , "key" : value )* }` — the non-empty tail of a
JSON object (duplicate keys resolve last-wins via `setPair`, as in
Python dicts). -/
def parseMembers : Nat → List Char → Option (List (String × Json) × List Char)
  | 0, _ => none
  | fuel + 1, cs =>
      match skipWs cs with
      | [] => none
      | c :: r =>
          if c = '\x22' then
            match parseStrBody (r.length + 1) r with
            | none => none
            | some (kcs, r2) =>
                match skipWs r2 with
                | ':' :: r3 =>
                    match parseVal fuel r3 with
                    | none => none
                    | some (v, r4) =>
                        match skipWs r4 with
                        | ',' :: r5 =>
                            match parseMembers fuel r5 with
                            | some (pairs, r6) => some ((String.mk kcs, v) :: pairs, r6)
                            | none => none
                        | c2 :: r5 =>
                            if c2 = Char.ofNat 125 then some ([(String.mk kcs, v)], r5)
                            else none
                        | [] => none
                | _ => none
          else none
end

/-- `json.loads`: a single JSON value surrounded only by whitespace. -/
def jsonParse (s : String) : Option Json :=
  match parseVal (2 * s.data.length + 2) s.data with
  | some (j, r) =>
      match skipWs r with
      | [] => some j
      | _ => none
  | none => none

/-! ### Constants (app.py lines 12-15) -/

def TMDB_IMAGE_BASE_URL : String := "https://image.tmdb.org/t/p/w500"

def PLACEHOLDER_IMAGE_URL : String :=
  "https://via.placeholder.com/500x750?text=Poster+Not+Available"

/-! ### Observable output trace

One constructor per output site of app.py; `st.*` calls render in the
user-facing page, `print` goes to the server console only. Adjacent
`st.error` lines of a single handler are coalesced into one effect. -/

inductive Effect where
  | errDeepseekKeyMissing            -- st.error, line 75
  | errTmdbKeyMissing                -- st.error, line 29
  | logTmdbFetchError (movie_title : Json)  -- print, line 56
  | writeRawApiText (retry : Nat)    -- st.write, line 117
  | textRaw (content : String)       -- st.text, line 118
  | writeParsedJson (retry : Nat)    -- st.write, line 125
  | jsonParsed (j : Json)            -- st.json, line 126
  | errEmptyContent (retry : Nat)    -- st.error, line 133
  | errNoRecommendationsKey (retry : Nat)  -- st.error, line 159
  | codeRaw (content : String)       -- st.code, lines 160/167/185
  | errContentJsonDecode (retry : Nat)     -- st.error, lines 164-166
  | errNoChoices (retry : Nat)       -- st.error, lines 172-173
  | jsonFull (j : Json)              -- st.json, line 174
  | errRootJsonDecode (retry : Nat)  -- st.error, lines 182-184
  | errRequestFailed (retry : Nat)   -- st.error, lines 188-190
  | errHttpStatus                    -- st.error, line 192
  | errResponseHeaders               -- st.error, line 193
  | infoRetrying (attempt : Nat)     -- st.info, line 198
  | sleepSecs (n : Nat)              -- time.sleep, line 199

/-- Which effects the user sees in the page (everything rendered by
Streamlit; `print` logging and sleeping are not user-visible). -/
def Effect.userVisible : Effect → Bool
  | .logTmdbFetchError _ => false
  | .sleepSecs _ => false
  | _ => true

/-- Truthiness of the environment-supplied API keys
(`if not TMDB_API_KEY:` — `os.getenv` yields None or a string). -/
def keyTruthy : Option String → Bool
  | none => false
  | some s => decide (s ≠ "")

/-! ### The Metadata Enricher: get_tmdb_movie_details (lines 18-57) -/

/-- Outcome of the one TMDB HTTP GET. `requestExn` covers every
`requests.exceptions.RequestException`: connection failure, timeout,
the `raise_for_status()` HTTPError, and a non-JSON body
(`response.json()` raises requests-level JSONDecodeError, a
RequestException subclass). `ok data` is a parsed JSON body. -/
inductive TmdbNet where
  | requestExn
  | ok (data : Json)

/-- Result record of a successful TMDB lookup: the dict built at
lines 48-51. `poster_url` is None when the result has no truthy
poster path; `year` is `movie_data.get('release_date', 'N/A')[:4]`
(the subsequent `year if year != 'N/A' else 'N/A'` is the identity). -/
structure TmdbDetails where
  poster_url : Option String
  year : Json

/-- Lines 18-57. Returns the Streamlit/log trace and either the
Python return value (a details record or None) or an uncaught
exception. Mirrors: missing-key check (28-30), the
try/except around the GET (38-57), `if data and data['results']:`
(43), first-result extraction (44-46), record construction (48-51). -/
def get_tmdb_movie_details (tmdbKey : Option String) (net : TmdbNet)
    (movie_title : Json) : List Effect × Except PyExn (Option TmdbDetails) :=
  if keyTruthy tmdbKey = false then ([Effect.errTmdbKeyMissing], Except.ok none)
  else
    match net with
    | .requestExn => ([Effect.logTmdbFetchError movie_title], Except.ok none)
    | .ok data =>
        if data.truthy then
          match pySubscript data "results" with
          | Except.error e => ([], Except.error e)
          | Except.ok results =>
              if results.truthy then
                match pyIndexZero results with
                | Except.error e => ([], Except.error e)
                | Except.ok movie_data =>
                    match pyGet movie_data "poster_path" Json.null with
                    | Except.error e => ([], Except.error e)
                    | Except.ok poster_path =>
                        match pyGet movie_data "release_date" (Json.str "N/A") with
                        | Except.error e => ([], Except.error e)
                        | Except.ok rd =>
                            match pySliceTo4 rd with
                            | Except.error e => ([], Except.error e)
                            | Except.ok year =>
                                ([], Except.ok (some
                                  { poster_url :=
                                      if poster_path.truthy then
                                        some (TMDB_IMAGE_BASE_URL ++ pyStr poster_path)
                                      else none,
                                    year := year }))
              else ([], Except.ok none)
        else ([], Except.ok none)

/-- The dict value merged into the recommendation at line 153:
`tmdb_details or {}` (the returned details dict always has two keys,
hence is truthy; None becomes `{}`). -/
def jsonOfDetails : Option TmdbDetails → Json
  | none => Json.obj []
  | some d =>
      Json.obj
        [("poster_url", match d.poster_url with
                        | some u => Json.str u
                        | none => Json.null),
         ("year", d.year)]

/-- `{**recommendation, "tmdb_details": v}` for the dicts the loop
meets (every recommendation reaching this point is a dict, because
`recommendation.get` succeeded). -/
def pySetKeyJson : Json → String → Json → Json
  | .obj kvs, key, v => Json.obj (setPair kvs key v)
  | j, _, _ => j

/-! ### The Generator/Orchestrator: get_movie_recommendations (61-201) -/

/-- Outcome of one `requests.post` to DeepSeek (one per loop
iteration). `postExn`: the POST itself raised, no response object was
bound. `httpError`: a response was received but `raise_for_status()`
raised. `ok text body`: status OK, `response.text = text`, and
`response.json()` returned `body`, or raised JSONDecodeError when
`body = none`. -/
inductive DSAttempt where
  | postExn
  | httpError
  | ok (text : String) (body : Option Json)

/-- Lines 144-155: the enrichment loop over the ranked list.
`i` is the position (the TMDB network outcome for the `i`-th call is
`tmdbNet i`). An exception inside the loop (from `recommendation.get`
on a non-dict, or from the enricher itself) aborts the run with the
effects emitted so far. -/
def enrichAll (tmdbKey : Option String) (tmdbNet : Nat → TmdbNet) :
    Nat → List Json → List Effect × Except PyExn (List Json)
  | _, [] => ([], Except.ok [])
  | i, rec :: rest =>
      match pyGet rec "title" Json.null with
      | Except.error e => ([], Except.error e)
      | Except.ok movie_title =>
          match get_tmdb_movie_details tmdbKey (tmdbNet i) movie_title with
          | (effs, Except.error e) => (effs, Except.error e)
          | (effs, Except.ok tmdb_details) =>
              match enrichAll tmdbKey tmdbNet (i + 1) rest with
              | (effs2, Except.error e) => (effs ++ effs2, Except.error e)
              | (effs2, Except.ok out) =>
                  (effs ++ effs2,
                   Except.ok (pySetKeyJson rec "tmdb_details"
                      (jsonOfDetails tmdb_details) :: out))

/-- Lines 132-168: from `if not api_content:` on, for a content value
already extracted from the envelope. Covers: empty-content check
(132-134), wrapper stripping (136), `json.loads` with its
JSONDecodeError handler (138-139, 163-168), the
`'recommendations' in ... and isinstance(..., list)` test (141), the
enrichment loop and its return (142-157), and the missing-key `else`
(158-161). A non-string truthy content raises AttributeError at
`.replace` (line 136). -/
def processContent (tmdbKey : Option String) (tmdbNet : Nat → TmdbNet)
    (k : Nat) (content : Json) : List Effect × Except PyExn (Option (List Json)) :=
  if content.truthy = false then ([Effect.errEmptyContent k], Except.ok none)
  else
    match content with
    | .str s =>
        let api_content := strip_wrappers s
        match jsonParse api_content with
        | none =>
            ([Effect.errContentJsonDecode k, Effect.codeRaw api_content], Except.ok none)
        | some recommendation_data =>
            match pyContains recommendation_data "recommendations" with
            | Except.error e => ([], Except.error e)
            | Except.ok b =>
                if b then
                  match pySubscript recommendation_data "recommendations" with
                  | Except.error e => ([], Except.error e)
                  | Except.ok recsVal =>
                      match recsVal with
                      | .arr ranked_recommendations =>
                          match enrichAll tmdbKey tmdbNet 0 ranked_recommendations with
                          | (effs, Except.error e) => (effs, Except.error e)
                          | (effs, Except.ok out) => (effs, Except.ok (some out))
                      | _ =>
                          ([Effect.errNoRecommendationsKey k, Effect.codeRaw api_content],
                           Except.ok none)
                else
                  ([Effect.errNoRecommendationsKey k, Effect.codeRaw api_content],
                   Except.ok none)
    | _ => ([], Except.error PyExn.attributeError)

/-- Lines 129-175: the `'choices' in json_response and
json_response['choices']` test, the content extraction chain
`['choices'][0]['message']['content']` (130), then `processContent`;
the dangling no-choices `else` (171-175). Exceptions of the chain
(TypeError/KeyError/IndexError) are caught by no handler. -/
def processEnvelope (tmdbKey : Option String) (tmdbNet : Nat → TmdbNet)
    (k : Nat) (json_response : Json) : List Effect × Except PyExn (Option (List Json)) :=
  match pyContains json_response "choices" with
  | Except.error e => ([], Except.error e)
  | Except.ok b =>
      if b then
        match pySubscript json_response "choices" with
        | Except.error e => ([], Except.error e)
        | Except.ok choices =>
            if choices.truthy then
              match pyIndexZero choices with
              | Except.error e => ([], Except.error e)
              | Except.ok c0 =>
                  match pySubscript c0 "message" with
                  | Except.error e => ([], Except.error e)
                  | Except.ok msg =>
                      match pySubscript msg "content" with
                      | Except.error e => ([], Except.error e)
                      | Except.ok content => processContent tmdbKey tmdbNet k content
            else
              ([Effect.errNoChoices k, Effect.jsonFull json_response], Except.ok none)
      else ([Effect.errNoChoices k, Effect.jsonFull json_response], Except.ok none)

/-- Result of one iteration of the retry loop: either the function
returns/raises (`done`), or control falls through to
`retry_count += 1` (`fallthrough`), carrying whether the local
variable `response` is bound afterwards. -/
inductive StepResult where
  | done (effs : List Effect) (res : Except PyExn (Option (List Json)))
  | fallthrough (effs : List Effect) (bound : Bool)

/-- One iteration of the `while retry_count <= max_retries` body
(lines 110-193), for iteration `k` (the value of `retry_count`), with
`bound` recording whether `response` was assigned by an earlier
iteration. `postExn` with `response` unbound raises
UnboundLocalError (a NameError) at line 191 inside the
RequestException handler; `httpError` and root-level JSONDecodeError
(181-185) fall through to the retry bookkeeping. -/
def attemptOnce (tmdbKey : Option String) (tmdbNet : Nat → TmdbNet)
    (attempts : Nat → DSAttempt) (k : Nat) (bound : Bool) : StepResult :=
  match attempts k with
  | .postExn =>
      if bound then
        StepResult.fallthrough
          [Effect.errRequestFailed k, Effect.errHttpStatus, Effect.errResponseHeaders] bound
      else StepResult.done [Effect.errRequestFailed k] (Except.error PyExn.nameError)
  | .httpError =>
      StepResult.fallthrough
        [Effect.errRequestFailed k, Effect.errHttpStatus, Effect.errResponseHeaders] true
  | .ok text body =>
      match body with
      | none =>
          StepResult.fallthrough
            ([Effect.writeRawApiText k, Effect.textRaw text] ++
             [Effect.errRootJsonDecode k, Effect.codeRaw text]) true
      | some json_response =>
          match processEnvelope tmdbKey tmdbNet k json_response with
          | (effs, res) =>
              StepResult.done
                ([Effect.writeRawApiText k, Effect.textRaw text,
                  Effect.writeParsedJson k, Effect.jsonParsed json_response] ++ effs) res

def max_retries : Nat := 1

/-- The retry loop (lines 108-199) plus the final `return None`
(201). The fuel argument only bounds iterations; the loop itself
terminates through its `retry_count <= max_retries` guard, and the
top-level call passes `max_retries + 1` fuel, which cannot run out
before the guard fails. The `break` at line 179 is unreachable:
every non-exceptional path of the loop body returns. -/
def dsLoop (tmdbKey : Option String) (tmdbNet : Nat → TmdbNet)
    (attempts : Nat → DSAttempt) :
    Nat → Nat → Bool → List Effect × Except PyExn (Option (List Json))
  | 0, _, _ => ([], Except.ok none)
  | fuel + 1, retry_count, bound =>
      if retry_count ≤ max_retries then
        match attemptOnce tmdbKey tmdbNet attempts retry_count bound with
        | StepResult.done effs res => (effs, res)
        | StepResult.fallthrough effs bound2 =>
            let retryEffs :=
              if retry_count + 1 ≤ max_retries then
                [Effect.infoRetrying (retry_count + 1), Effect.sleepSecs 2]
              else []
            match dsLoop tmdbKey tmdbNet attempts fuel (retry_count + 1) bound2 with
            | (effs2, res) => (effs ++ retryEffs ++ effs2, res)
      else ([], Except.ok none)

/-- Lines 61-201. `liked_movie`, `liked_aspect` and
`num_recommendations` only shape the prompt (lines 83-94), which the
attempt environment already abstracts; notably the count is never
used to truncate the result. Returns the effect trace and either the
Python return value (a list of merged dicts, or None) or an uncaught
exception. -/
def get_movie_recommendations (dsKey tmdbKey : Option String)
    (attempts : Nat → DSAttempt) (tmdbNet : Nat → TmdbNet)
    (liked_movie liked_aspect : String) (num_recommendations : Int) :
    List Effect × Except PyExn (Option (List Json)) :=
  if keyTruthy dsKey = false then ([Effect.errDeepseekKeyMissing], Except.ok none)
  else dsLoop tmdbKey tmdbNet attempts (max_retries + 1) 0 false

/-! ### The render block (lines 210-244) -/

/-- Line 217 vs 243: `if recommendations: ... else: st.error(...)`.
True when the user is shown the failure message ("Failed to get movie
recommendations...") — on a None return and equally on an empty
list, both falsy. -/
def showsFailureMessage : Option (List Json) → Bool
  | none => true
  | some recommendations => recommendations.isEmpty

/-- Lines 221 and 226-230: which image URL the page shows for one
recommendation record — `tmdb_details.get('poster_url')` if truthy,
else the placeholder. -/
def displayedPoster (recommendation : Json) : Except PyExn String :=
  match pyGet recommendation "tmdb_details" (Json.obj []) with
  | Except.error e => Except.error e
  | Except.ok tmdb_details =>
      match pyGet tmdb_details "poster_url" Json.null with
      | Except.error e => Except.error e
      | Except.ok poster_url =>
          Except.ok (if poster_url.truthy then pyStr poster_url else PLACEHOLDER_IMAGE_URL)

/-! ### Derived forms used by the claim statements -/

/-- A DeepSeek response envelope whose single choice carries `s` as
message content (the shape the happy path consumes). -/
def mkEnvelope (s : String) : Json :=
  Json.obj [("choices",
    Json.arr [Json.obj [("message", Json.obj [("content", Json.str s)])]])]

def isObjB : Json → Bool
  | .obj _ => true
  | _ => false

/-- Field lookup on a JSON object (none on other shapes). -/
def jsonLookupJ : Json → String → Option Json
  | .obj kvs, key => jsonLookup kvs key
  | _, _ => none

/-- The `movie_title` the loop passes to the enricher:
`recommendation.get('title')` (null when absent; only meaningful on
dicts). -/
def titleD (rec : Json) : Json :=
  match pyGet rec "title" Json.null with
  | Except.ok t => t
  | Except.error _ => Json.null

/-- The value component of the enricher on a non-raising outcome. -/
def tmdbValD (tmdbKey : Option String) (net : TmdbNet) (movie_title : Json) :
    Option TmdbDetails :=
  match (get_tmdb_movie_details tmdbKey net movie_title).2 with
  | Except.ok v => v
  | Except.error _ => none

/-- The merged record the loop appends for one recommendation. -/
def enrichOne (tmdbKey : Option String) (net : TmdbNet) (rec : Json) : Json :=
  pySetKeyJson rec "tmdb_details" (jsonOfDetails (tmdbValD tmdbKey net (titleD rec)))

/-- The value the enrichment loop returns when nothing raises. -/
def enrichPure (tmdbKey : Option String) (tmdbNet : Nat → TmdbNet) :
    Nat → List Json → List Json
  | _, [] => []
  | i, rec :: rest => enrichOne tmdbKey (tmdbNet i) rec :: enrichPure tmdbKey tmdbNet (i + 1) rest

/-- TMDB outcomes on which `get_tmdb_movie_details` cannot raise: a
request-level failure, or a body whose shape the happy path expects
(falsy data, or a dict whose `results` is falsy or a list headed by a
dict with a sliceable release date). Mirrors the function's own case
analysis. -/
def TmdbNet.benign : TmdbNet → Bool
  | .requestExn => true
  | .ok data =>
      if data.truthy = false then true
      else
        match data with
        | .obj kvs =>
            match jsonLookup kvs "results" with
            | none => false
            | some results =>
                match results with
                | .arr [] => true
                | .arr (m0 :: _) =>
                    match m0 with
                    | .obj mkvs =>
                        (match (jsonLookup mkvs "release_date").getD (Json.str "N/A") with
                         | .str _ => true
                         | .arr _ => true
                         | _ => false)
                    | _ => false
                | r => !r.truthy
        | _ => false

/-! ### Supporting lemmas -/

theorem jsonLookup_setPair (kvs : List (String × Json)) (key : String) (v : Json) :
    jsonLookup (setPair kvs key v) key = some v := by
  induction kvs with
  | nil => simp [setPair, jsonLookup]
  | cons p rest ih =>
      by_cases h : p.1 = key
      · simp [setPair, h, jsonLookup]
      · simp [setPair, h, jsonLookup, ih]

theorem tmdb_benign_ok (tmdbKey : Option String) (net : TmdbNet) (t : Json)
    (h : net.benign = true) :
    (get_tmdb_movie_details tmdbKey net t).2 = Except.ok (tmdbValD tmdbKey net t) := by
  by_cases hk : keyTruthy tmdbKey = false
  · simp [get_tmdb_movie_details, tmdbValD, hk]
  · cases net with
    | requestExn => simp [get_tmdb_movie_details, tmdbValD, hk]
    | ok data =>
        by_cases hd : data.truthy = false
        · simp [get_tmdb_movie_details, tmdbValD, hk, hd]
        · cases data with
          | obj kvs =>
              simp only [TmdbNet.benign, hd, if_neg, Bool.false_eq_true, ite_false] at h
              cases hres : jsonLookup kvs "results" with
              | none => simp [hres] at h
              | some results =>
                  simp only [hres] at h
                  by_cases hrt : results.truthy = false
                  · simp [get_tmdb_movie_details, tmdbValD, hk, hd, pySubscript, hres, hrt]
                  · cases results with
                    | arr xs =>
                        cases xs with
                        | nil => simp [Json.truthy] at hrt
                        | cons m0 rest =>
                            cases m0 with
                            | obj mkvs =>
                                cases hrd : (jsonLookup mkvs "release_date").getD (Json.str "N/A") with
                                | str d =>
                                    simp [get_tmdb_movie_details, tmdbValD, hk, hd, pySubscript,
                                      hres, hrt, pyIndexZero, pyGet, hrd, pySliceTo4]
                                | arr ys =>
                                    simp [get_tmdb_movie_details, tmdbValD, hk, hd, pySubscript,
                                      hres, hrt, pyIndexZero, pyGet, hrd, pySliceTo4]
                                | null => simp [hrd] at h
                                | bool b => simp [hrd] at h
                                | num m e => simp [hrd] at h
                                | obj o => simp [hrd] at h
                            | null => simp at h
                            | bool b => simp at h
                            | num m e => simp at h
                            | str s2 => simp at h
                            | arr ys => simp at h
                    | null => simp [Json.truthy] at hrt
                    | bool b => simp [hrt] at h
                    | num m e => simp [hrt] at h
                    | str s2 => simp [hrt] at h
                    | obj o => simp [hrt] at h
          | null => simp [Json.truthy] at hd
          | bool b => simp [TmdbNet.benign, hd] at h
          | num m e => simp [TmdbNet.benign, hd] at h
          | str s2 => simp [TmdbNet.benign, hd] at h
          | arr xs => simp [TmdbNet.benign, hd] at h

theorem titleD_eq_pyGet (kvs : List (String × Json)) :
    pyGet (Json.obj kvs) "title" Json.null = Except.ok (titleD (Json.obj kvs)) := by
  simp [pyGet, titleD]

theorem enrichAll_ok (tmdbKey : Option String) (tmdbNet : Nat → TmdbNet)
    (recs : List Json) (i : Nat)
    (hobj : ∀ r ∈ recs, isObjB r = true)
    (htm : ∀ j, (tmdbNet j).benign = true) :
    (enrichAll tmdbKey tmdbNet i recs).2 =
      Except.ok (enrichPure tmdbKey tmdbNet i recs) := by
  induction recs generalizing i with
  | nil => simp [enrichAll, enrichPure]
  | cons rec rest ih =>
      have hr : isObjB rec = true := hobj rec (List.mem_cons_self rec rest)
      have hrest : ∀ r ∈ rest, isObjB r = true :=
        fun r hm => hobj r (List.mem_cons_of_mem rec hm)
      cases rec with
      | obj kvs =>
          have h2 := tmdb_benign_ok tmdbKey (tmdbNet i) (titleD (Json.obj kvs)) (htm i)
          have h3 := ih (i + 1) hrest
          simp only [enrichAll, titleD_eq_pyGet]
          rcases h4 : get_tmdb_movie_details tmdbKey (tmdbNet i) (titleD (Json.obj kvs)) with ⟨effs, res⟩
          rcases h5 : enrichAll tmdbKey tmdbNet (i + 1) rest with ⟨effs2, res2⟩
          have h6 : res = Except.ok (tmdbValD tmdbKey (tmdbNet i) (titleD (Json.obj kvs))) := by
            rw [← h2, h4]
          have h7 : res2 = Except.ok (enrichPure tmdbKey tmdbNet (i + 1) rest) := by
            rw [← h3, h5]
          subst h6; subst h7
          simp [enrichPure, enrichOne]
      | null => simp [isObjB] at hr
      | bool b => simp [isObjB] at hr
      | num m e => simp [isObjB] at hr
      | str s => simp [isObjB] at hr
      | arr xs => simp [isObjB] at hr

theorem enrichPure_length (tmdbKey : Option String) (tmdbNet : Nat → TmdbNet)
    (recs : List Json) (i : Nat) :
    (enrichPure tmdbKey tmdbNet i recs).length = recs.length := by
  induction recs generalizing i with
  | nil => simp [enrichPure]
  | cons rec rest ih => simp [enrichPure, ih]

theorem enrichPure_get (tmdbKey : Option String) (tmdbNet : Nat → TmdbNet)
    (recs : List Json) (i0 i : Nat) (hi : i < recs.length)
    (hi2 : i < (enrichPure tmdbKey tmdbNet i0 recs).length) :
    (enrichPure tmdbKey tmdbNet i0 recs).get ⟨i, hi2⟩ =
      enrichOne tmdbKey (tmdbNet (i0 + i)) (recs.get ⟨i, hi⟩) := by
  induction recs generalizing i0 i with
  | nil => simp at hi
  | cons rec rest ih =>
      cases i with
      | zero => simp [enrichPure]
      | succ j =>
          have hj : j < rest.length := by simpa using hi
          have hj2 : j < (enrichPure tmdbKey tmdbNet (i0 + 1) rest).length := by
            simpa [enrichPure] using hi2
          have := ih (i0 + 1) j hj hj2
          simpa [enrichPure, Nat.add_assoc, Nat.add_comm 1 j] using this

theorem processEnvelope_mk (tmdbKey : Option String) (tmdbNet : Nat → TmdbNet)
    (k : Nat) (s : String) :
    processEnvelope tmdbKey tmdbNet k (mkEnvelope s) =
      processContent tmdbKey tmdbNet k (Json.str s) := rfl

theorem processContent_recs (tmdbKey : Option String) (tmdbNet : Nat → TmdbNet)
    (k : Nat) (s : String) (data : Json) (ranked : List Json)
    (hs : s ≠ "")
    (hp : jsonParse (strip_wrappers s) = some data)
    (hc : pyContains data "recommendations" = Except.ok true)
    (hv : pySubscript data "recommendations" = Except.ok (Json.arr ranked)) :
    processContent tmdbKey tmdbNet k (Json.str s) =
      ((enrichAll tmdbKey tmdbNet 0 ranked).1,
       match (enrichAll tmdbKey tmdbNet 0 ranked).2 with
       | Except.ok out => Except.ok (some out)
       | Except.error e => Except.error e) := by
  have hts : Json.truthy (Json.str s) = true := by simp [Json.truthy, hs]
  rcases h : enrichAll tmdbKey tmdbNet 0 ranked with ⟨effs, res⟩
  cases res with
  | ok out => simp [processContent, hts, hp, hc, hv, h]
  | error e => simp [processContent, hts, hp, hc, hv, h]

theorem attemptOnce_envelope (tmdbKey : Option String) (tmdbNet : Nat → TmdbNet)
    (attempts : Nat → DSAttempt) (k : Nat) (bound : Bool) (raw s : String)
    (hatt : attempts k = DSAttempt.ok raw (some (mkEnvelope s))) :
    attemptOnce tmdbKey tmdbNet attempts k bound =
      StepResult.done
        ([Effect.writeRawApiText k, Effect.textRaw raw, Effect.writeParsedJson k,
          Effect.jsonParsed (mkEnvelope s)] ++
            (processContent tmdbKey tmdbNet k (Json.str s)).1)
        (processContent tmdbKey tmdbNet k (Json.str s)).2 := by
  rcases h : processContent tmdbKey tmdbNet k (Json.str s) with ⟨effs, res⟩
  simp [attemptOnce, hatt, processEnvelope_mk, h]

theorem run_success_at0 (dsKey tmdbKey : Option String)
    (attempts : Nat → DSAttempt) (tmdbNet : Nat → TmdbNet)
    (lm la : String) (n : Int) (raw s : String) (data : Json) (ranked : List Json)
    (hkey : keyTruthy dsKey = true)
    (hatt : attempts 0 = DSAttempt.ok raw (some (mkEnvelope s)))
    (hs : s ≠ "")
    (hp : jsonParse (strip_wrappers s) = some data)
    (hc : pyContains data "recommendations" = Except.ok true)
    (hv : pySubscript data "recommendations" = Except.ok (Json.arr ranked))
    (hobj : ∀ r ∈ ranked, isObjB r = true)
    (htm : ∀ j, (tmdbNet j).benign = true) :
    get_movie_recommendations dsKey tmdbKey attempts tmdbNet lm la n =
      ([Effect.writeRawApiText 0, Effect.textRaw raw, Effect.writeParsedJson 0,
        Effect.jsonParsed (mkEnvelope s)] ++ (enrichAll tmdbKey tmdbNet 0 ranked).1,
       Except.ok (some (enrichPure tmdbKey tmdbNet 0 ranked))) := by
  have hc1 := processContent_recs tmdbKey tmdbNet 0 s data ranked hs hp hc hv
  have he := enrichAll_ok tmdbKey tmdbNet ranked 0 hobj htm
  have ha := attemptOnce_envelope tmdbKey tmdbNet attempts 0 false raw s hatt
  rcases hE : enrichAll tmdbKey tmdbNet 0 ranked with ⟨effsE, resE⟩
  have hres : resE = Except.ok (enrichPure tmdbKey tmdbNet 0 ranked) := by rw [← he, hE]
  subst hres
  rw [hE] at hc1
  simp [get_movie_recommendations, hkey, dsLoop, ha, hc1]

theorem run_success_at1 (dsKey tmdbKey : Option String)
    (attempts : Nat → DSAttempt) (tmdbNet : Nat → TmdbNet)
    (lm la : String) (n : Int) (raw s : String) (data : Json) (ranked : List Json)
    (hkey : keyTruthy dsKey = true)
    (hatt0 : attempts 0 = DSAttempt.httpError)
    (hatt : attempts 1 = DSAttempt.ok raw (some (mkEnvelope s)))
    (hs : s ≠ "")
    (hp : jsonParse (strip_wrappers s) = some data)
    (hc : pyContains data "recommendations" = Except.ok true)
    (hv : pySubscript data "recommendations" = Except.ok (Json.arr ranked))
    (hobj : ∀ r ∈ ranked, isObjB r = true)
    (htm : ∀ j, (tmdbNet j).benign = true) :
    get_movie_recommendations dsKey tmdbKey attempts tmdbNet lm la n =
      ([Effect.errRequestFailed 0, Effect.errHttpStatus, Effect.errResponseHeaders,
        Effect.infoRetrying 1, Effect.sleepSecs 2,
        Effect.writeRawApiText 1, Effect.textRaw raw, Effect.writeParsedJson 1,
        Effect.jsonParsed (mkEnvelope s)] ++ (enrichAll tmdbKey tmdbNet 0 ranked).1,
       Except.ok (some (enrichPure tmdbKey tmdbNet 0 ranked))) := by
  have hc1 := processContent_recs tmdbKey tmdbNet 1 s data ranked hs hp hc hv
  have he := enrichAll_ok tmdbKey tmdbNet ranked 0 hobj htm
  rcases hE : enrichAll tmdbKey tmdbNet 0 ranked with ⟨effsE, resE⟩
  have hres : resE = Except.ok (enrichPure tmdbKey tmdbNet 0 ranked) := by rw [← he, hE]
  subst hres
  rw [hE] at hc1
  simp [get_movie_recommendations, hkey, dsLoop, attemptOnce, hatt0, hatt, max_retries,
    processEnvelope_mk, hc1]

theorem run_schema_failure (dsKey tmdbKey : Option String)
    (attempts : Nat → DSAttempt) (tmdbNet : Nat → TmdbNet)
    (lm la : String) (n : Int) (raw s : String) (data : Json)
    (hkey : keyTruthy dsKey = true)
    (hatt : attempts 0 = DSAttempt.ok raw (some (mkEnvelope s)))
    (hs : s ≠ "")
    (hp : jsonParse (strip_wrappers s) = some data)
    (hc : pyContains data "recommendations" = Except.ok false) :
    get_movie_recommendations dsKey tmdbKey attempts tmdbNet lm la n =
      ([Effect.writeRawApiText 0, Effect.textRaw raw, Effect.writeParsedJson 0,
        Effect.jsonParsed (mkEnvelope s), Effect.errNoRecommendationsKey 0,
        Effect.codeRaw (strip_wrappers s)],
       Except.ok none) := by
  have hts : Json.truthy (Json.str s) = true := by simp [Json.truthy, hs]
  have hc1 : processContent tmdbKey tmdbNet 0 (Json.str s) =
      ([Effect.errNoRecommendationsKey 0, Effect.codeRaw (strip_wrappers s)],
       Except.ok none) := by
    simp [processContent, hts, hp, hc]
  have ha := attemptOnce_envelope tmdbKey tmdbNet attempts 0 false raw s hatt
  simp [get_movie_recommendations, hkey, dsLoop, ha, hc1]

theorem run_content_parse_failure (dsKey tmdbKey : Option String)
    (attempts : Nat → DSAttempt) (tmdbNet : Nat → TmdbNet)
    (lm la : String) (n : Int) (raw s : String)
    (hkey : keyTruthy dsKey = true)
    (hatt : attempts 0 = DSAttempt.ok raw (some (mkEnvelope s)))
    (hs : s ≠ "")
    (hp : jsonParse (strip_wrappers s) = none) :
    get_movie_recommendations dsKey tmdbKey attempts tmdbNet lm la n =
      ([Effect.writeRawApiText 0, Effect.textRaw raw, Effect.writeParsedJson 0,
        Effect.jsonParsed (mkEnvelope s), Effect.errContentJsonDecode 0,
        Effect.codeRaw (strip_wrappers s)],
       Except.ok none) := by
  have hts : Json.truthy (Json.str s) = true := by simp [Json.truthy, hs]
  have hc1 : processContent tmdbKey tmdbNet 0 (Json.str s) =
      ([Effect.errContentJsonDecode 0, Effect.codeRaw (strip_wrappers s)],
       Except.ok none) := by
    simp [processContent, hts, hp]
  have ha := attemptOnce_envelope tmdbKey tmdbNet attempts 0 false raw s hatt
  simp [get_movie_recommendations, hkey, dsLoop, ha, hc1]

theorem run_transport_exhausted (dsKey tmdbKey : Option String)
    (attempts : Nat → DSAttempt) (tmdbNet : Nat → TmdbNet)
    (lm la : String) (n : Int)
    (hkey : keyTruthy dsKey = true)
    (hatt0 : attempts 0 = DSAttempt.httpError)
    (hatt1 : attempts 1 = DSAttempt.httpError) :
    get_movie_recommendations dsKey tmdbKey attempts tmdbNet lm la n =
      ([Effect.errRequestFailed 0, Effect.errHttpStatus, Effect.errResponseHeaders,
        Effect.infoRetrying 1, Effect.sleepSecs 2,
        Effect.errRequestFailed 1, Effect.errHttpStatus, Effect.errResponseHeaders],
       Except.ok none) := by
  simp [get_movie_recommendations, hkey, dsLoop, attemptOnce, hatt0, hatt1, max_retries]

theorem run_envelope_retry (dsKey tmdbKey : Option String)
    (attempts : Nat → DSAttempt) (tmdbNet : Nat → TmdbNet)
    (lm la : String) (n : Int) (raw0 raw1 : String)
    (hkey : keyTruthy dsKey = true)
    (hatt0 : attempts 0 = DSAttempt.ok raw0 none)
    (hatt1 : attempts 1 = DSAttempt.ok raw1 none) :
    get_movie_recommendations dsKey tmdbKey attempts tmdbNet lm la n =
      ([Effect.writeRawApiText 0, Effect.textRaw raw0, Effect.errRootJsonDecode 0,
        Effect.codeRaw raw0, Effect.infoRetrying 1, Effect.sleepSecs 2,
        Effect.writeRawApiText 1, Effect.textRaw raw1, Effect.errRootJsonDecode 1,
        Effect.codeRaw raw1],
       Except.ok none) := by
  simp [get_movie_recommendations, hkey, dsLoop, attemptOnce, hatt0, hatt1, max_retries]

theorem run_post_crash (dsKey tmdbKey : Option String)
    (attempts : Nat → DSAttempt) (tmdbNet : Nat → TmdbNet)
    (lm la : String) (n : Int)
    (hkey : keyTruthy dsKey = true)
    (hatt0 : attempts 0 = DSAttempt.postExn) :
    get_movie_recommendations dsKey tmdbKey attempts tmdbNet lm la n =
      ([Effect.errRequestFailed 0], Except.error PyExn.nameError) := by
  simp [get_movie_recommendations, hkey, dsLoop, attemptOnce, hatt0, max_retries]

theorem tmdb_effects_quiet (key : Option String) (net : TmdbNet) (t : Json)
    (hk : keyTruthy key = true) :
    (get_tmdb_movie_details key net t).1 = []
      ∨ (get_tmdb_movie_details key net t).1 = [Effect.logTmdbFetchError t] := by
  cases net with
  | requestExn => right; simp [get_tmdb_movie_details, hk]
  | ok data =>
      left
      simp only [get_tmdb_movie_details, hk, Bool.true_eq_false, if_false]
      split
      · split
        · rfl
        · split
          · split
            · rfl
            · split
              · rfl
              · split
                · rfl
                · split
                  · rfl
                  · rfl
          · rfl
      · rfl

/-! ### Claim C4 -/

/-- C4, counterexample: with the TMDB key missing, `get_tmdb_movie_details`
emits a user-visible `st.error` ("TMDB API key not found...") — the claim
says a missing API key never surfaces a user-visible error. (It does still
return the NotFound value None.) -/
theorem C4_counterexample :
    get_tmdb_movie_details none TmdbNet.requestExn (Json.str "X") =
        ([Effect.errTmdbKeyMissing], Except.ok none)
      ∧ Effect.userVisible Effect.errTmdbKeyMissing = true :=
  ⟨rfl, rfl⟩

/-- C4, amended: with a configured key, for every title and every benign
network outcome (request-level failure or an expected-shape body) the
Enricher returns without raising, degrading every failure to None, and
none of its output is user-visible; with the key missing it still returns
None but shows a user-visible error message; and a response whose JSON
parses to an unexpected shape (here: an object without a `results` key)
raises KeyError to the caller instead of degrading. -/
theorem C4_enricher_never_raises_amended :
    (∀ (key : Option String) (net : TmdbNet) (t : Json),
        keyTruthy key = true → net.benign = true →
        (get_tmdb_movie_details key net t).2 = Except.ok (tmdbValD key net t)
          ∧ ∀ e ∈ (get_tmdb_movie_details key net t).1, e.userVisible = false)
      ∧ (∀ (key : Option String) (net : TmdbNet) (t : Json),
          keyTruthy key = false →
          get_tmdb_movie_details key net t = ([Effect.errTmdbKeyMissing], Except.ok none))
      ∧ get_tmdb_movie_details (some "k") (TmdbNet.ok (Json.obj [("foo", Json.null)]))
          (Json.str "T") = ([], Except.error PyExn.keyError) := by
  refine ⟨fun key net t hk hb => ⟨tmdb_benign_ok key net t hb, ?_⟩, fun key net t hk => ?_, rfl⟩
  · rcases tmdb_effects_quiet key net t hk with h | h <;>
      · rw [h]; intro e he; simp at he <;> simp [he, Effect.userVisible]
  · simp [get_tmdb_movie_details, hk]

/-- C4, witness for the amended theorem, at a configured key, a
request-level failure, and a missing key. -/
theorem C4_enricher_never_raises_amended_witness :
    ((get_tmdb_movie_details (some "t") TmdbNet.requestExn (Json.str "X")).2 =
        Except.ok (tmdbValD (some "t") TmdbNet.requestExn (Json.str "X"))
      ∧ ∀ e ∈ (get_tmdb_movie_details (some "t") TmdbNet.requestExn (Json.str "X")).1,
          e.userVisible = false)
    ∧ get_tmdb_movie_details none TmdbNet.requestExn (Json.str "Y") =
        ([Effect.errTmdbKeyMissing], Except.ok none) :=
  ⟨C4_enricher_never_raises_amended.1 (some "t") TmdbNet.requestExn (Json.str "X")
      (by decide) rfl,
   C4_enricher_never_raises_amended.2.1 none TmdbNet.requestExn (Json.str "Y") rfl⟩

/-! ### Claim C8 -/

/-- C8, counterexample: when the first search result has no poster path
but has a release date, the Enricher does NOT return the NotFound value:
it returns a record with `poster_url = None` and the year — the claim
says this case returns NotFound carrying neither poster nor year,
exactly like zero results. -/
theorem C8_counterexample :
    get_tmdb_movie_details (some "k")
        (TmdbNet.ok (Json.obj [("results",
          Json.arr [Json.obj [("release_date", Json.str "1999-03-31")]])]))
        (Json.str "T") =
      ([], Except.ok (some { poster_url := none, year := Json.str "1999" }))
    ∧ (some { poster_url := none, year := Json.str "1999" } : Option TmdbDetails) ≠ none :=
  ⟨rfl, by simp⟩

/-- C8, amended: when the first result has a falsy poster path, the
Enricher returns a details record whose poster reference is None but
which carries the first four characters of the release date as the
year; only zero search results, a missing key, or a request-level
failure yield the NotFound value None (the missing-key case also shows
an error message). -/
theorem C8_no_poster_path_amended :
    (∀ (key : Option String) (t : Json) (mkvs : List (String × Json))
        (rest : List Json) (d : String),
        keyTruthy key = true →
        ((jsonLookup mkvs "poster_path").getD Json.null).truthy = false →
        (jsonLookup mkvs "release_date").getD (Json.str "N/A") = Json.str d →
        get_tmdb_movie_details key
            (TmdbNet.ok (Json.obj [("results", Json.arr (Json.obj mkvs :: rest))])) t =
          ([], Except.ok (some { poster_url := none,
                                 year := Json.str (String.mk (d.data.take 4)) })))
      ∧ (∀ (key : Option String) (t : Json),
          keyTruthy key = true →
          get_tmdb_movie_details key (TmdbNet.ok (Json.obj [("results", Json.arr [])])) t =
            ([], Except.ok none))
      ∧ (∀ (net : TmdbNet) (t : Json),
          get_tmdb_movie_details none net t = ([Effect.errTmdbKeyMissing], Except.ok none))
      ∧ (∀ (key : Option String) (t : Json),
          keyTruthy key = true →
          get_tmdb_movie_details key TmdbNet.requestExn t =
            ([Effect.logTmdbFetchError t], Except.ok none)) := by
  refine ⟨fun key t mkvs rest d hk hpp hrd => ?_, fun key t hk => ?_,
    fun net t => ?_, fun key t hk => ?_⟩
  · have hdt : (Json.obj [("results", Json.arr (Json.obj mkvs :: rest))]).truthy = true := rfl
    have hrt : (Json.arr (Json.obj mkvs :: rest)).truthy = true := rfl
    simp [get_tmdb_movie_details, hk, hdt, hrt, pySubscript, jsonLookup,
      pyIndexZero, pyGet, hrd, hpp, pySliceTo4]
  · have hdt : (Json.obj [("results", Json.arr ([] : List Json))]).truthy = true := rfl
    have hrt : (Json.arr ([] : List Json)).truthy = false := rfl
    simp [get_tmdb_movie_details, hk, hdt, hrt, pySubscript, jsonLookup]
  · simp [get_tmdb_movie_details, keyTruthy]
  · simp [get_tmdb_movie_details, hk]

/-- C8, witness for the amended theorem at concrete inputs for each of
its four parts. -/
theorem C8_no_poster_path_amended_witness :
    get_tmdb_movie_details (some "k")
        (TmdbNet.ok (Json.obj [("results",
          Json.arr [Json.obj [("release_date", Json.str "1999-03-31")]])]))
        (Json.str "T") =
      ([], Except.ok (some { poster_url := none, year := Json.str "1999" }))
    ∧ get_tmdb_movie_details (some "k") (TmdbNet.ok (Json.obj [("results", Json.arr [])]))
        (Json.str "T") = ([], Except.ok none)
    ∧ get_tmdb_movie_details none TmdbNet.requestExn (Json.str "T") =
        ([Effect.errTmdbKeyMissing], Except.ok none)
    ∧ get_tmdb_movie_details (some "k") TmdbNet.requestExn (Json.str "T") =
        ([Effect.logTmdbFetchError (Json.str "T")], Except.ok none) := by
  refine ⟨?_, ?_, ?_, ?_⟩
  · have h := C8_no_poster_path_amended.1 (some "k") (Json.str "T")
      [("release_date", Json.str "1999-03-31")] [] "1999-03-31"
      (by decide) (by decide) rfl
    simpa using h
  · exact C8_no_poster_path_amended.2.1 (some "k") (Json.str "T") (by decide)
  · exact C8_no_poster_path_amended.2.2.1 TmdbNet.requestExn (Json.str "T")
  · exact C8_no_poster_path_amended.2.2.2 (some "k") (Json.str "T") (by decide)

/-! ### Claim C1 -/

/-- C1: in every run whose generator response carries a content string
parsing to a JSON object with a `recommendations` list `ranked` (and
that completes — list items are dicts and no enrichment call raises),
the final output is `Except.ok` of exactly one merged record per
recommendation: the output has the same length, its `i`-th entry (same
1-based rank) is the `i`-th recommendation with the `tmdb_details` key
attached, and a failed enrichment (the enricher returning None)
attaches the empty dict `{}` — no entry is dropped, skipped or
permuted. -/
theorem C1_enrichment_total_ordered (dsKey tmdbKey : Option String)
    (attempts : Nat → DSAttempt) (tmdbNet : Nat → TmdbNet)
    (lm la : String) (n : Int) (raw s : String) (data : Json) (ranked : List Json)
    (hkey : keyTruthy dsKey = true)
    (hatt : attempts 0 = DSAttempt.ok raw (some (mkEnvelope s)))
    (hs : s ≠ "")
    (hp : jsonParse (strip_wrappers s) = some data)
    (hc : pyContains data "recommendations" = Except.ok true)
    (hv : pySubscript data "recommendations" = Except.ok (Json.arr ranked))
    (hobj : ∀ r ∈ ranked, isObjB r = true)
    (htm : ∀ j, (tmdbNet j).benign = true) :
    (get_movie_recommendations dsKey tmdbKey attempts tmdbNet lm la n).2 =
        Except.ok (some (enrichPure tmdbKey tmdbNet 0 ranked))
      ∧ (enrichPure tmdbKey tmdbNet 0 ranked).length = ranked.length
      ∧ (∀ i (hi : i < ranked.length)
            (hi2 : i < (enrichPure tmdbKey tmdbNet 0 ranked).length),
          (enrichPure tmdbKey tmdbNet 0 ranked).get ⟨i, hi2⟩ =
            pySetKeyJson (ranked.get ⟨i, hi⟩) "tmdb_details"
              (jsonOfDetails (tmdbValD tmdbKey (tmdbNet i) (titleD (ranked.get ⟨i, hi⟩)))))
      ∧ (∀ i (hi : i < ranked.length)
            (hi2 : i < (enrichPure tmdbKey tmdbNet 0 ranked).length),
          tmdbValD tmdbKey (tmdbNet i) (titleD (ranked.get ⟨i, hi⟩)) = none →
          jsonLookupJ ((enrichPure tmdbKey tmdbNet 0 ranked).get ⟨i, hi2⟩) "tmdb_details" =
            some (Json.obj [])) := by
  have hrun := run_success_at0 dsKey tmdbKey attempts tmdbNet lm la n raw s data ranked
    hkey hatt hs hp hc hv hobj htm
  refine ⟨by rw [hrun], enrichPure_length tmdbKey tmdbNet ranked 0, ?_, ?_⟩
  · intro i hi hi2
    have hg := enrichPure_get tmdbKey tmdbNet ranked 0 i hi hi2
    simpa [enrichOne] using hg
  · intro i hi hi2 hnone
    have hg := enrichPure_get tmdbKey tmdbNet ranked 0 i hi hi2
    simp only [Nat.zero_add] at hg
    have hr : isObjB (ranked.get ⟨i, hi⟩) = true :=
      hobj (ranked.get ⟨i, hi⟩) (List.get_mem ranked i hi)
    rw [hg]
    revert hnone hr
    generalize ranked.get ⟨i, hi⟩ = r
    intro hnone hr
    cases r with
    | obj kvs =>
        simp [enrichOne, pySetKeyJson, jsonLookupJ, hnone, jsonOfDetails, jsonLookup_setPair]
    | null => simp [isObjB] at hr
    | bool b => simp [isObjB] at hr
    | num m e => simp [isObjB] at hr
    | str s2 => simp [isObjB] at hr
    | arr xs => simp [isObjB] at hr

def c1content : String :=
  "\x7b\"recommendations\": [\x7b\"title\": \"A\"\x7d, \x7b\"title\": \"B\"\x7d]\x7d"

def c1ranked : List Json :=
  [Json.obj [("title", Json.str "A")], Json.obj [("title", Json.str "B")]]

def c1data : Json := Json.obj [("recommendations", Json.arr c1ranked)]

/-- TMDB environment for witnesses: the first lookup succeeds with a
poster and date, every later lookup fails at request level. -/
def c1tmdb : Nat → TmdbNet := fun i =>
  if i = 0 then
    TmdbNet.ok (Json.obj [("results", Json.arr [Json.obj
      [("poster_path", Json.str "/p.jpg"), ("release_date", Json.str "1999-03-31")]])])
  else TmdbNet.requestExn

def c1att : Nat → DSAttempt := fun _ => DSAttempt.ok "raw" (some (mkEnvelope c1content))

/-- C1, witness: a concrete two-item run, first enrichment succeeding,
second failing at request level. -/
theorem C1_enrichment_total_ordered_witness :
    (get_movie_recommendations (some "k") (some "t") c1att c1tmdb "m" "a" 3).2 =
        Except.ok (some (enrichPure (some "t") c1tmdb 0 c1ranked))
      ∧ (enrichPure (some "t") c1tmdb 0 c1ranked).length = c1ranked.length
      ∧ (∀ i (hi : i < c1ranked.length)
            (hi2 : i < (enrichPure (some "t") c1tmdb 0 c1ranked).length),
          (enrichPure (some "t") c1tmdb 0 c1ranked).get ⟨i, hi2⟩ =
            pySetKeyJson (c1ranked.get ⟨i, hi⟩) "tmdb_details"
              (jsonOfDetails (tmdbValD (some "t") (c1tmdb i) (titleD (c1ranked.get ⟨i, hi⟩)))))
      ∧ (∀ i (hi : i < c1ranked.length)
            (hi2 : i < (enrichPure (some "t") c1tmdb 0 c1ranked).length),
          tmdbValD (some "t") (c1tmdb i) (titleD (c1ranked.get ⟨i, hi⟩)) = none →
          jsonLookupJ ((enrichPure (some "t") c1tmdb 0 c1ranked).get ⟨i, hi2⟩) "tmdb_details" =
            some (Json.obj [])) :=
  C1_enrichment_total_ordered (some "k") (some "t") c1att c1tmdb "m" "a" 3
    "raw" c1content c1data c1ranked (by decide) rfl (by decide) rfl rfl rfl
    (by decide) (fun j => by cases j with | zero => rfl | succ j => rfl)

/-! ### Claim C5 -/

def c5content : String :=
  "\x7b\"recommendations\": [\x7b\"title\": \"T1\"\x7d, \x7b\"title\": \"T2\"\x7d, \x7b\"title\": \"T3\"\x7d, \x7b\"title\": \"T4\"\x7d]\x7d"

def c5ranked : List Json :=
  [Json.obj [("title", Json.str "T1")], Json.obj [("title", Json.str "T2")],
   Json.obj [("title", Json.str "T3")], Json.obj [("title", Json.str "T4")]]

def c5data : Json := Json.obj [("recommendations", Json.arr c5ranked)]

def c5out : List Json :=
  [Json.obj [("title", Json.str "T1"), ("tmdb_details", Json.obj [])],
   Json.obj [("title", Json.str "T2"), ("tmdb_details", Json.obj [])],
   Json.obj [("title", Json.str "T3"), ("tmdb_details", Json.obj [])],
   Json.obj [("title", Json.str "T4"), ("tmdb_details", Json.obj [])]]

/-- C5, counterexample: a valid request with count = 3 whose LLM
response contains 4 items yields a 4-element list — the pipeline never
truncates to the requested count, so the returned length is NOT always
at most k. -/
theorem C5_counterexample :
    (get_movie_recommendations (some "k") (some "t")
        (fun _ => DSAttempt.ok "raw" (some (mkEnvelope c5content)))
        (fun _ => TmdbNet.requestExn) "m" "a" 3).2 = Except.ok (some c5out)
      ∧ ¬(c5out.length ≤ 3) :=
  ⟨rfl, by decide⟩

/-- C5, amended: the length of a successful run's output equals the
length of the recommendations list in the LLM response, whatever count
was requested — the bound `≤ k` holds only when the model itself
returns at most k items. -/
theorem C5_no_truncation_amended (dsKey tmdbKey : Option String)
    (attempts : Nat → DSAttempt) (tmdbNet : Nat → TmdbNet)
    (lm la : String) (n : Int) (raw s : String) (data : Json) (ranked : List Json)
    (hkey : keyTruthy dsKey = true)
    (hatt : attempts 0 = DSAttempt.ok raw (some (mkEnvelope s)))
    (hs : s ≠ "")
    (hp : jsonParse (strip_wrappers s) = some data)
    (hc : pyContains data "recommendations" = Except.ok true)
    (hv : pySubscript data "recommendations" = Except.ok (Json.arr ranked))
    (hobj : ∀ r ∈ ranked, isObjB r = true)
    (htm : ∀ j, (tmdbNet j).benign = true) :
    (get_movie_recommendations dsKey tmdbKey attempts tmdbNet lm la n).2 =
        Except.ok (some (enrichPure tmdbKey tmdbNet 0 ranked))
      ∧ (enrichPure tmdbKey tmdbNet 0 ranked).length = ranked.length := by
  have hrun := run_success_at0 dsKey tmdbKey attempts tmdbNet lm la n raw s data ranked
    hkey hatt hs hp hc hv hobj htm
  exact ⟨by rw [hrun], enrichPure_length tmdbKey tmdbNet ranked 0⟩

/-- C5, witness for the amended theorem: the 4-item response of the
counterexample, under a count-3 request. -/
theorem C5_no_truncation_amended_witness :
    (get_movie_recommendations (some "k") (some "t")
        (fun _ => DSAttempt.ok "raw" (some (mkEnvelope c5content)))
        (fun _ => TmdbNet.requestExn) "m" "a" 3).2 =
        Except.ok (some (enrichPure (some "t") (fun _ => TmdbNet.requestExn) 0 c5ranked))
      ∧ (enrichPure (some "t") (fun _ => TmdbNet.requestExn) 0 c5ranked).length =
          c5ranked.length :=
  C5_no_truncation_amended (some "k") (some "t")
    (fun _ => DSAttempt.ok "raw" (some (mkEnvelope c5content)))
    (fun _ => TmdbNet.requestExn) "m" "a" 3 "raw" c5content c5data c5ranked
    (by decide) rfl (by decide) rfl rfl rfl (by decide) (fun j => rfl)

/-! ### Claim C10 -/

/-- C10: when the LLM response parses successfully and its
`recommendations` key holds the empty list, the function returns the
empty list (a success), and the render block's truthiness test
(`if recommendations:`) sends this success down the same failure
branch as a None return — the user sees the failure message either
way, so zero-item success is indistinguishable from an error at the
public surface. -/
theorem C10_empty_list_indistinguishable (dsKey tmdbKey : Option String)
    (attempts : Nat → DSAttempt) (tmdbNet : Nat → TmdbNet)
    (lm la : String) (n : Int) (raw s : String) (data : Json)
    (hkey : keyTruthy dsKey = true)
    (hatt : attempts 0 = DSAttempt.ok raw (some (mkEnvelope s)))
    (hs : s ≠ "")
    (hp : jsonParse (strip_wrappers s) = some data)
    (hc : pyContains data "recommendations" = Except.ok true)
    (hv : pySubscript data "recommendations" = Except.ok (Json.arr [])) :
    (get_movie_recommendations dsKey tmdbKey attempts tmdbNet lm la n).2 =
        Except.ok (some ([] : List Json))
      ∧ showsFailureMessage (some ([] : List Json)) = true
      ∧ showsFailureMessage none = true := by
  have hc1 := processContent_recs tmdbKey tmdbNet 0 s data [] hs hp hc hv
  have hc2 : processContent tmdbKey tmdbNet 0 (Json.str s) =
      ([], Except.ok (some ([] : List Json))) := by simpa [enrichAll] using hc1
  have ha := attemptOnce_envelope tmdbKey tmdbNet attempts 0 false raw s hatt
  rw [hc2] at ha
  refine ⟨?_, rfl, rfl⟩
  simp [get_movie_recommendations, hkey, dsLoop, ha]

/-- C10, witness: a concrete run whose content is
`{"recommendations": []}`. -/
theorem C10_empty_list_indistinguishable_witness :
    (get_movie_recommendations (some "k") (some "t")
        (fun _ => DSAttempt.ok "raw"
          (some (mkEnvelope "\x7b\"recommendations\": []\x7d")))
        (fun _ => TmdbNet.requestExn) "m" "a" 3).2 =
        Except.ok (some ([] : List Json))
      ∧ showsFailureMessage (some ([] : List Json)) = true
      ∧ showsFailureMessage none = true :=
  C10_empty_list_indistinguishable (some "k") (some "t")
    (fun _ => DSAttempt.ok "raw" (some (mkEnvelope "\x7b\"recommendations\": []\x7d")))
    (fun _ => TmdbNet.requestExn) "m" "a" 3 "raw" "\x7b\"recommendations\": []\x7d"
    (Json.obj [("recommendations", Json.arr [])])
    (by decide) rfl (by decide) rfl rfl rfl

/-! ### Shared one-item fixtures for C2/C3/C7 -/

def wContent : String := "\x7b\"recommendations\": [\x7b\"title\": \"X\"\x7d]\x7d"

def wRanked : List Json := [Json.obj [("title", Json.str "X")]]

def wData : Json := Json.obj [("recommendations", Json.arr wRanked)]

def wOut : List Json := [Json.obj [("title", Json.str "X"), ("tmdb_details", Json.obj [])]]

/-! ### Claim C2 -/

/-- C2, counterexample: with a transport that fails exactly 2 times and
then succeeds (attempt indices 0 and 1 fail with an HTTP error, index 2
onward would succeed — the second run, on the same outcome sequence
shifted by two, shows the third outcome genuinely yields a successful
pipeline run), the run does NOT succeed: it stops after 2 attempts and
returns None. The attempt budget is 2 with a constant 2-unit delay, not
3 with exponential backoff, and exhaustion yields None rather than a
TransportExhausted error. -/
theorem C2_counterexample :
    (get_movie_recommendations (some "k") (some "t")
        (fun i => if i ≤ 1 then DSAttempt.httpError
                  else DSAttempt.ok "raw" (some (mkEnvelope wContent)))
        (fun _ => TmdbNet.requestExn) "m" "a" 3).2 = Except.ok none
    ∧ (get_movie_recommendations (some "k") (some "t")
        (fun i => if i + 2 ≤ 1 then DSAttempt.httpError
                  else DSAttempt.ok "raw" (some (mkEnvelope wContent)))
        (fun _ => TmdbNet.requestExn) "m" "a" 3).2 = Except.ok (some wOut) :=
  ⟨rfl, rfl⟩

/-- C2, amended: the retry policy is an attempt budget of 2 with one
constant 2-time-unit delay between attempts, retrying only when a
response object exists (HTTP-status failures and root-level JSON decode
failures): if the transport fails exactly once with an HTTP error and
then succeeds, the run succeeds (after an `st.info` retry notice and a
2-second sleep); if it fails twice, the run returns None — no
discriminated TransportExhausted value; and a connection-level failure
of the very first POST raises UnboundLocalError (a NameError) out of
the function from the handler's `response is not None` check instead
of retrying at all. -/
theorem C2_retry_budget_two_amended :
    (∀ (dsKey tmdbKey : Option String) (attempts : Nat → DSAttempt)
        (tmdbNet : Nat → TmdbNet) (lm la : String) (n : Int)
        (raw s : String) (data : Json) (ranked : List Json),
        keyTruthy dsKey = true →
        attempts 0 = DSAttempt.httpError →
        attempts 1 = DSAttempt.ok raw (some (mkEnvelope s)) →
        s ≠ "" →
        jsonParse (strip_wrappers s) = some data →
        pyContains data "recommendations" = Except.ok true →
        pySubscript data "recommendations" = Except.ok (Json.arr ranked) →
        (∀ r ∈ ranked, isObjB r = true) →
        (∀ j, (tmdbNet j).benign = true) →
        get_movie_recommendations dsKey tmdbKey attempts tmdbNet lm la n =
          ([Effect.errRequestFailed 0, Effect.errHttpStatus, Effect.errResponseHeaders,
            Effect.infoRetrying 1, Effect.sleepSecs 2,
            Effect.writeRawApiText 1, Effect.textRaw raw, Effect.writeParsedJson 1,
            Effect.jsonParsed (mkEnvelope s)] ++ (enrichAll tmdbKey tmdbNet 0 ranked).1,
           Except.ok (some (enrichPure tmdbKey tmdbNet 0 ranked))))
    ∧ (∀ (dsKey tmdbKey : Option String) (attempts : Nat → DSAttempt)
        (tmdbNet : Nat → TmdbNet) (lm la : String) (n : Int),
        keyTruthy dsKey = true →
        attempts 0 = DSAttempt.httpError →
        attempts 1 = DSAttempt.httpError →
        get_movie_recommendations dsKey tmdbKey attempts tmdbNet lm la n =
          ([Effect.errRequestFailed 0, Effect.errHttpStatus, Effect.errResponseHeaders,
            Effect.infoRetrying 1, Effect.sleepSecs 2,
            Effect.errRequestFailed 1, Effect.errHttpStatus, Effect.errResponseHeaders],
           Except.ok none))
    ∧ (∀ (dsKey tmdbKey : Option String) (attempts : Nat → DSAttempt)
        (tmdbNet : Nat → TmdbNet) (lm la : String) (n : Int),
        keyTruthy dsKey = true →
        attempts 0 = DSAttempt.postExn →
        get_movie_recommendations dsKey tmdbKey attempts tmdbNet lm la n =
          ([Effect.errRequestFailed 0], Except.error PyExn.nameError)) :=
  ⟨fun dsKey tmdbKey attempts tmdbNet lm la n raw s data ranked
      hkey hatt0 hatt hs hp hc hv hobj htm =>
    run_success_at1 dsKey tmdbKey attempts tmdbNet lm la n raw s data ranked
      hkey hatt0 hatt hs hp hc hv hobj htm,
   fun dsKey tmdbKey attempts tmdbNet lm la n hkey hatt0 hatt1 =>
    run_transport_exhausted dsKey tmdbKey attempts tmdbNet lm la n hkey hatt0 hatt1,
   fun dsKey tmdbKey attempts tmdbNet lm la n hkey hatt0 =>
    run_post_crash dsKey tmdbKey attempts tmdbNet lm la n hkey hatt0⟩

/-- C2, witness for the amended theorem: its three parts at concrete
transports (fail-once-then-succeed, fail-twice, first-POST crash). -/
theorem C2_retry_budget_two_amended_witness :
    get_movie_recommendations (some "k") (some "t")
        (fun i => if i = 0 then DSAttempt.httpError
                  else DSAttempt.ok "raw" (some (mkEnvelope wContent)))
        (fun _ => TmdbNet.requestExn) "m" "a" 3 =
      ([Effect.errRequestFailed 0, Effect.errHttpStatus, Effect.errResponseHeaders,
        Effect.infoRetrying 1, Effect.sleepSecs 2,
        Effect.writeRawApiText 1, Effect.textRaw "raw", Effect.writeParsedJson 1,
        Effect.jsonParsed (mkEnvelope wContent)] ++
          (enrichAll (some "t") (fun _ => TmdbNet.requestExn) 0 wRanked).1,
       Except.ok (some (enrichPure (some "t") (fun _ => TmdbNet.requestExn) 0 wRanked)))
    ∧ get_movie_recommendations (some "k") (some "t") (fun _ => DSAttempt.httpError)
        (fun _ => TmdbNet.requestExn) "m" "a" 3 =
      ([Effect.errRequestFailed 0, Effect.errHttpStatus, Effect.errResponseHeaders,
        Effect.infoRetrying 1, Effect.sleepSecs 2,
        Effect.errRequestFailed 1, Effect.errHttpStatus, Effect.errResponseHeaders],
       Except.ok none)
    ∧ get_movie_recommendations (some "k") (some "t") (fun _ => DSAttempt.postExn)
        (fun _ => TmdbNet.requestExn) "m" "a" 3 =
      ([Effect.errRequestFailed 0], Except.error PyExn.nameError) :=
  ⟨C2_retry_budget_two_amended.1 (some "k") (some "t")
      (fun i => if i = 0 then DSAttempt.httpError
                else DSAttempt.ok "raw" (some (mkEnvelope wContent)))
      (fun _ => TmdbNet.requestExn) "m" "a" 3 "raw" wContent wData wRanked
      (by decide) rfl rfl (by decide) rfl rfl rfl (by decide) (fun j => rfl),
   C2_retry_budget_two_amended.2.1 (some "k") (some "t") (fun _ => DSAttempt.httpError)
      (fun _ => TmdbNet.requestExn) "m" "a" 3 (by decide) rfl rfl,
   C2_retry_budget_two_amended.2.2 (some "k") (some "t") (fun _ => DSAttempt.postExn)
      (fun _ => TmdbNet.requestExn) "m" "a" 3 (by decide) rfl⟩

/-! ### Claim C3 -/

/-- C3, counterexample: an envelope-level JSON parse failure (the
provider body `"not json"` fails `response.json()`) is NOT returned
immediately — the Generator makes a second provider call (the trace
contains the attempt-1 debug write) and the run then succeeds. -/
theorem C3_counterexample :
    get_movie_recommendations (some "k") (some "t")
        (fun i => if i = 0 then DSAttempt.ok "not json" none
                  else DSAttempt.ok "raw" (some (mkEnvelope wContent)))
        (fun _ => TmdbNet.requestExn) "m" "a" 3 =
      ([Effect.writeRawApiText 0, Effect.textRaw "not json", Effect.errRootJsonDecode 0,
        Effect.codeRaw "not json", Effect.infoRetrying 1, Effect.sleepSecs 2,
        Effect.writeRawApiText 1, Effect.textRaw "raw", Effect.writeParsedJson 1,
        Effect.jsonParsed (mkEnvelope wContent),
        Effect.logTmdbFetchError (Json.str "X")],
       Except.ok (some wOut))
    ∧ Effect.writeRawApiText 1 ∈
        (get_movie_recommendations (some "k") (some "t")
          (fun i => if i = 0 then DSAttempt.ok "not json" none
                    else DSAttempt.ok "raw" (some (mkEnvelope wContent)))
          (fun _ => TmdbNet.requestExn) "m" "a" 3).1 := by
  refine ⟨rfl, ?_⟩
  have h : (get_movie_recommendations (some "k") (some "t")
      (fun i => if i = 0 then DSAttempt.ok "not json" none
                else DSAttempt.ok "raw" (some (mkEnvelope wContent)))
      (fun _ => TmdbNet.requestExn) "m" "a" 3).1 =
    [Effect.writeRawApiText 0, Effect.textRaw "not json", Effect.errRootJsonDecode 0,
     Effect.codeRaw "not json", Effect.infoRetrying 1, Effect.sleepSecs 2,
     Effect.writeRawApiText 1, Effect.textRaw "raw", Effect.writeParsedJson 1,
     Effect.jsonParsed (mkEnvelope wContent),
     Effect.logTmdbFetchError (Json.str "X")] := rfl
  rw [h]; simp

/-- C3, amended: failures of the *content* JSON parse and schema
failures are returned immediately with no second provider call (the
trace contains no attempt-1 write), exactly as the claim says — but
envelope-level JSON parse failures are retried under the transport
retry budget like transport errors (two such failures exhaust the
budget after a second call). -/
theorem C3_retry_scope_amended :
    (∀ (dsKey tmdbKey : Option String) (attempts : Nat → DSAttempt)
        (tmdbNet : Nat → TmdbNet) (lm la : String) (n : Int) (raw s : String),
        keyTruthy dsKey = true →
        attempts 0 = DSAttempt.ok raw (some (mkEnvelope s)) →
        s ≠ "" →
        jsonParse (strip_wrappers s) = none →
        get_movie_recommendations dsKey tmdbKey attempts tmdbNet lm la n =
          ([Effect.writeRawApiText 0, Effect.textRaw raw, Effect.writeParsedJson 0,
            Effect.jsonParsed (mkEnvelope s), Effect.errContentJsonDecode 0,
            Effect.codeRaw (strip_wrappers s)], Except.ok none)
        ∧ Effect.writeRawApiText 1 ∉
            (get_movie_recommendations dsKey tmdbKey attempts tmdbNet lm la n).1)
    ∧ (∀ (dsKey tmdbKey : Option String) (attempts : Nat → DSAttempt)
        (tmdbNet : Nat → TmdbNet) (lm la : String) (n : Int) (raw s : String) (data : Json),
        keyTruthy dsKey = true →
        attempts 0 = DSAttempt.ok raw (some (mkEnvelope s)) →
        s ≠ "" →
        jsonParse (strip_wrappers s) = some data →
        pyContains data "recommendations" = Except.ok false →
        get_movie_recommendations dsKey tmdbKey attempts tmdbNet lm la n =
          ([Effect.writeRawApiText 0, Effect.textRaw raw, Effect.writeParsedJson 0,
            Effect.jsonParsed (mkEnvelope s), Effect.errNoRecommendationsKey 0,
            Effect.codeRaw (strip_wrappers s)], Except.ok none)
        ∧ Effect.writeRawApiText 1 ∉
            (get_movie_recommendations dsKey tmdbKey attempts tmdbNet lm la n).1)
    ∧ (∀ (dsKey tmdbKey : Option String) (attempts : Nat → DSAttempt)
        (tmdbNet : Nat → TmdbNet) (lm la : String) (n : Int) (raw0 raw1 : String),
        keyTruthy dsKey = true →
        attempts 0 = DSAttempt.ok raw0 none →
        attempts 1 = DSAttempt.ok raw1 none →
        get_movie_recommendations dsKey tmdbKey attempts tmdbNet lm la n =
          ([Effect.writeRawApiText 0, Effect.textRaw raw0, Effect.errRootJsonDecode 0,
            Effect.codeRaw raw0, Effect.infoRetrying 1, Effect.sleepSecs 2,
            Effect.writeRawApiText 1, Effect.textRaw raw1, Effect.errRootJsonDecode 1,
            Effect.codeRaw raw1], Except.ok none)) := by
  refine ⟨fun dsKey tmdbKey attempts tmdbNet lm la n raw s hkey hatt hs hp => ?_,
    fun dsKey tmdbKey attempts tmdbNet lm la n raw s data hkey hatt hs hp hc => ?_,
    fun dsKey tmdbKey attempts tmdbNet lm la n raw0 raw1 hkey hatt0 hatt1 =>
      run_envelope_retry dsKey tmdbKey attempts tmdbNet lm la n raw0 raw1 hkey hatt0 hatt1⟩
  · have h := run_content_parse_failure dsKey tmdbKey attempts tmdbNet lm la n raw s
      hkey hatt hs hp
    exact ⟨h, by rw [h]; simp⟩
  · have h := run_schema_failure dsKey tmdbKey attempts tmdbNet lm la n raw s data
      hkey hatt hs hp hc
    exact ⟨h, by rw [h]; simp⟩

/-- C3, witness for the amended theorem: a content parse failure
(`"oops"`), a schema failure (`{"foo": 1}` without the
recommendations key), and a double envelope failure, each at concrete
inputs. -/
theorem C3_retry_scope_amended_witness :
    (get_movie_recommendations (some "k") (some "t")
        (fun _ => DSAttempt.ok "raw" (some (mkEnvelope "oops")))
        (fun _ => TmdbNet.requestExn) "m" "a" 3 =
      ([Effect.writeRawApiText 0, Effect.textRaw "raw", Effect.writeParsedJson 0,
        Effect.jsonParsed (mkEnvelope "oops"), Effect.errContentJsonDecode 0,
        Effect.codeRaw (strip_wrappers "oops")], Except.ok none)
      ∧ Effect.writeRawApiText 1 ∉
          (get_movie_recommendations (some "k") (some "t")
            (fun _ => DSAttempt.ok "raw" (some (mkEnvelope "oops")))
            (fun _ => TmdbNet.requestExn) "m" "a" 3).1)
    ∧ (get_movie_recommendations (some "k") (some "t")
        (fun _ => DSAttempt.ok "raw" (some (mkEnvelope "\x7b\"foo\": 1\x7d")))
        (fun _ => TmdbNet.requestExn) "m" "a" 3 =
      ([Effect.writeRawApiText 0, Effect.textRaw "raw", Effect.writeParsedJson 0,
        Effect.jsonParsed (mkEnvelope "\x7b\"foo\": 1\x7d"), Effect.errNoRecommendationsKey 0,
        Effect.codeRaw (strip_wrappers "\x7b\"foo\": 1\x7d")], Except.ok none)
      ∧ Effect.writeRawApiText 1 ∉
          (get_movie_recommendations (some "k") (some "t")
            (fun _ => DSAttempt.ok "raw" (some (mkEnvelope "\x7b\"foo\": 1\x7d")))
            (fun _ => TmdbNet.requestExn) "m" "a" 3).1)
    ∧ get_movie_recommendations (some "k") (some "t")
        (fun i => DSAttempt.ok (if i = 0 then "bad0" else "bad1") none)
        (fun _ => TmdbNet.requestExn) "m" "a" 3 =
      ([Effect.writeRawApiText 0, Effect.textRaw "bad0", Effect.errRootJsonDecode 0,
        Effect.codeRaw "bad0", Effect.infoRetrying 1, Effect.sleepSecs 2,
        Effect.writeRawApiText 1, Effect.textRaw "bad1", Effect.errRootJsonDecode 1,
        Effect.codeRaw "bad1"], Except.ok none) :=
  ⟨C3_retry_scope_amended.1 (some "k") (some "t")
      (fun _ => DSAttempt.ok "raw" (some (mkEnvelope "oops")))
      (fun _ => TmdbNet.requestExn) "m" "a" 3 "raw" "oops"
      (by decide) rfl (by decide) rfl,
   C3_retry_scope_amended.2.1 (some "k") (some "t")
      (fun _ => DSAttempt.ok "raw" (some (mkEnvelope "\x7b\"foo\": 1\x7d")))
      (fun _ => TmdbNet.requestExn) "m" "a" 3 "raw" "\x7b\"foo\": 1\x7d"
      (Json.obj [("foo", Json.num 1 0)]) (by decide) rfl (by decide) rfl rfl,
   C3_retry_scope_amended.2.2 (some "k") (some "t")
      (fun i => DSAttempt.ok (if i = 0 then "bad0" else "bad1") none)
      (fun _ => TmdbNet.requestExn) "m" "a" 3 "bad0" "bad1"
      (by decide) rfl rfl⟩

/-! ### Claim C7 -/

/-- C7, counterexample: two different terminal failures — a schema
failure (content without the recommendations key) and transport
exhaustion — both make the function return the same undifferentiated
None; the caller receives no discriminated error value at all (kind
and raw text are only rendered as messages, not returned). -/
theorem C7_counterexample :
    (get_movie_recommendations (some "k") (some "t")
        (fun _ => DSAttempt.ok "raw" (some (mkEnvelope "\x7b\"bar\": 1\x7d")))
        (fun _ => TmdbNet.requestExn) "m" "a" 3).2 = Except.ok none
    ∧ (get_movie_recommendations (some "k") (some "t") (fun _ => DSAttempt.httpError)
        (fun _ => TmdbNet.requestExn) "m" "a" 3).2 = Except.ok none :=
  ⟨rfl, rfl⟩

/-- C7, amended: on every terminal failure the function returns None
to its caller; the failure kind and, for parse-related failures, the
raw offending text are conveyed only through the rendered
`st.error`/`st.code` messages in the trace (the schema-failure and
parse-failure traces contain the raw stripped text in an `st.code`
effect), and a missing key likewise returns None after its error
message. -/
theorem C7_failures_return_none_amended :
    (∀ (dsKey tmdbKey : Option String) (attempts : Nat → DSAttempt)
        (tmdbNet : Nat → TmdbNet) (lm la : String) (n : Int) (raw s : String) (data : Json),
        keyTruthy dsKey = true →
        attempts 0 = DSAttempt.ok raw (some (mkEnvelope s)) →
        s ≠ "" →
        jsonParse (strip_wrappers s) = some data →
        pyContains data "recommendations" = Except.ok false →
        (get_movie_recommendations dsKey tmdbKey attempts tmdbNet lm la n).2 = Except.ok none
        ∧ Effect.codeRaw (strip_wrappers s) ∈
            (get_movie_recommendations dsKey tmdbKey attempts tmdbNet lm la n).1
        ∧ Effect.errNoRecommendationsKey 0 ∈
            (get_movie_recommendations dsKey tmdbKey attempts tmdbNet lm la n).1)
    ∧ (∀ (dsKey tmdbKey : Option String) (attempts : Nat → DSAttempt)
        (tmdbNet : Nat → TmdbNet) (lm la : String) (n : Int) (raw s : String),
        keyTruthy dsKey = true →
        attempts 0 = DSAttempt.ok raw (some (mkEnvelope s)) →
        s ≠ "" →
        jsonParse (strip_wrappers s) = none →
        (get_movie_recommendations dsKey tmdbKey attempts tmdbNet lm la n).2 = Except.ok none
        ∧ Effect.codeRaw (strip_wrappers s) ∈
            (get_movie_recommendations dsKey tmdbKey attempts tmdbNet lm la n).1
        ∧ Effect.errContentJsonDecode 0 ∈
            (get_movie_recommendations dsKey tmdbKey attempts tmdbNet lm la n).1)
    ∧ (∀ (dsKey tmdbKey : Option String) (attempts : Nat → DSAttempt)
        (tmdbNet : Nat → TmdbNet) (lm la : String) (n : Int),
        keyTruthy dsKey = true →
        attempts 0 = DSAttempt.httpError →
        attempts 1 = DSAttempt.httpError →
        (get_movie_recommendations dsKey tmdbKey attempts tmdbNet lm la n).2 = Except.ok none)
    ∧ (∀ (dsKey tmdbKey : Option String) (attempts : Nat → DSAttempt)
        (tmdbNet : Nat → TmdbNet) (lm la : String) (n : Int),
        keyTruthy dsKey = false →
        get_movie_recommendations dsKey tmdbKey attempts tmdbNet lm la n =
          ([Effect.errDeepseekKeyMissing], Except.ok none)) := by
  refine ⟨fun dsKey tmdbKey attempts tmdbNet lm la n raw s data hkey hatt hs hp hc => ?_,
    fun dsKey tmdbKey attempts tmdbNet lm la n raw s hkey hatt hs hp => ?_,
    fun dsKey tmdbKey attempts tmdbNet lm la n hkey hatt0 hatt1 => ?_,
    fun dsKey tmdbKey attempts tmdbNet lm la n hkey => ?_⟩
  · have h := run_schema_failure dsKey tmdbKey attempts tmdbNet lm la n raw s data
      hkey hatt hs hp hc
    exact ⟨by rw [h], by rw [h]; simp, by rw [h]; simp⟩
  · have h := run_content_parse_failure dsKey tmdbKey attempts tmdbNet lm la n raw s
      hkey hatt hs hp
    exact ⟨by rw [h], by rw [h]; simp, by rw [h]; simp⟩
  · have h := run_transport_exhausted dsKey tmdbKey attempts tmdbNet lm la n hkey hatt0 hatt1
    rw [h]
  · simp [get_movie_recommendations, hkey]

/-- C7, witness for the amended theorem at concrete failing runs of
each kind. -/
theorem C7_failures_return_none_amended_witness :
    ((get_movie_recommendations (some "k") (some "t")
        (fun _ => DSAttempt.ok "raw" (some (mkEnvelope "\x7b\"bar\": 1\x7d")))
        (fun _ => TmdbNet.requestExn) "m" "a" 3).2 = Except.ok none
      ∧ Effect.codeRaw (strip_wrappers "\x7b\"bar\": 1\x7d") ∈
          (get_movie_recommendations (some "k") (some "t")
            (fun _ => DSAttempt.ok "raw" (some (mkEnvelope "\x7b\"bar\": 1\x7d")))
            (fun _ => TmdbNet.requestExn) "m" "a" 3).1
      ∧ Effect.errNoRecommendationsKey 0 ∈
          (get_movie_recommendations (some "k") (some "t")
            (fun _ => DSAttempt.ok "raw" (some (mkEnvelope "\x7b\"bar\": 1\x7d")))
            (fun _ => TmdbNet.requestExn) "m" "a" 3).1)
    ∧ ((get_movie_recommendations (some "k") (some "t") (fun _ => DSAttempt.httpError)
        (fun _ => TmdbNet.requestExn) "m" "a" 3).2 = Except.ok none)
    ∧ get_movie_recommendations none (some "t") (fun _ => DSAttempt.httpError)
        (fun _ => TmdbNet.requestExn) "m" "a" 3 =
      ([Effect.errDeepseekKeyMissing], Except.ok none) :=
  ⟨C7_failures_return_none_amended.1 (some "k") (some "t")
      (fun _ => DSAttempt.ok "raw" (some (mkEnvelope "\x7b\"bar\": 1\x7d")))
      (fun _ => TmdbNet.requestExn) "m" "a" 3 "raw" "\x7b\"bar\": 1\x7d"
      (Json.obj [("bar", Json.num 1 0)]) (by decide) rfl (by decide) rfl rfl,
   C7_failures_return_none_amended.2.2.1 (some "k") (some "t") (fun _ => DSAttempt.httpError)
      (fun _ => TmdbNet.requestExn) "m" "a" 3 (by decide) rfl rfl,
   C7_failures_return_none_amended.2.2.2 none (some "t") (fun _ => DSAttempt.httpError)
      (fun _ => TmdbNet.requestExn) "m" "a" 3 rfl⟩

/-! ### Claim C6 -/

theorem replaceGo_pass (pat2 cs rest : List Char) (h : ∀ c ∈ cs, c ≠ btick) :
    replaceGo (btick :: pat2) [] 0 (cs ++ rest) =
      cs ++ replaceGo (btick :: pat2) [] 0 rest := by
  induction cs with
  | nil => simp
  | cons c cs2 ih =>
      have hc : c ≠ btick := h c (List.mem_cons_self c cs2)
      have htail := ih fun x hx => h x (List.mem_cons_of_mem c hx)
      have hpre : (btick :: pat2).isPrefixOf (c :: (cs2 ++ rest)) = false := by
        simp [List.isPrefixOf, Ne.symm hc]
      simp [replaceGo, hpre, htail]

theorem replaceGo_no_btick (pat2 cs : List Char) (h : ∀ c ∈ cs, c ≠ btick) :
    replaceGo (btick :: pat2) [] 0 cs = cs := by
  have h2 := replaceGo_pass pat2 cs [] h
  simpa [replaceGo] using h2

theorem pyStrip_wrap (l : List Char) : pyStrip ('\x0a' :: (l ++ ['\x0a'])) = pyStrip l := by
  unfold pyStrip
  have h1 : isStripChar '\x0a' = true := rfl
  rw [List.dropWhile_cons]
  simp only [h1, if_true]
  rw [List.dropWhile_append]
  by_cases he : (l.dropWhile isStripChar).isEmpty
  · simp [he, List.isEmpty_iff.mp he, List.dropWhile, h1]
  · simp only [he, if_false, Bool.false_eq_true]
    rw [List.reverse_append]
    simp [List.dropWhile, h1]

/-- C6, counterexample: the fence-stripping step is not a no-op on the
fence-free text consisting of a space followed by braces — `.strip()`
removes the surrounding whitespace (and the step would likewise strip
backticks appearing inside JSON string values). -/
theorem C6_counterexample : strip_wrappers " \x7b\x7d" ≠ " \x7b\x7d" := by decide

/-- C6, amended: on text containing no backtick character at all and no
leading/trailing whitespace the step is the identity; and a fenced text
formed as three backticks + `json`, a newline, a backtick-free inner
text, a newline and three closing backticks strips to exactly the same
string as stripping the inner text directly — so fenced and unfenced
responses yield identical parse results. (The claim's premise must be
strengthened from "contains no code fences" to "contains no backtick
and no surrounding whitespace": the step removes every backtick and
trims, not only fence markers.) -/
theorem C6_fence_strip_amended :
    (∀ s : String, (∀ c ∈ s.data, c ≠ btick) → pyStrip s.data = s.data →
        strip_wrappers s = s)
      ∧ (∀ inner : String, (∀ c ∈ inner.data, c ≠ btick) →
          strip_wrappers ("```json\x0a" ++ inner ++ "\x0a```") = strip_wrappers inner) := by
  constructor
  · intro s h hstrip
    unfold strip_wrappers pyReplace
    rw [show ("`json".data) = btick :: "json".data from rfl]
    rw [replaceGo_no_btick "json".data s.data h]
    rw [show ([btick] : List Char) = btick :: [] from rfl]
    rw [replaceGo_no_btick [] s.data h]
    rw [hstrip]
  · intro inner h
    unfold strip_wrappers pyReplace
    rw [show ("`json".data) = btick :: "json".data from rfl,
        show ([btick] : List Char) = btick :: [] from rfl]
    rw [replaceGo_no_btick "json".data inner.data h]
    rw [replaceGo_no_btick [] inner.data h]
    have hdata : ("```json\x0a" ++ inner ++ "\x0a```").data =
        "```json\x0a".data ++ inner.data ++ "\x0a```".data := by
      rw [String.data_append, String.data_append]
    rw [hdata]
    have hstep1 : replaceGo (btick :: "json".data) [] 0
        ("```json\x0a".data ++ inner.data ++ "\x0a```".data) =
        btick :: btick :: '\x0a' :: (inner.data ++ "\x0a```".data) := by
      rw [List.append_assoc]
      rw [show ("```json\x0a".data ++ (inner.data ++ "\x0a```".data)) =
        btick :: btick :: btick :: 'j' :: 's' :: 'o' :: 'n' :: '\x0a' ::
          (inner.data ++ "\x0a```".data) from rfl]
      rw [show replaceGo (btick :: "json".data) [] 0
            (btick :: btick :: btick :: 'j' :: 's' :: 'o' :: 'n' :: '\x0a' ::
              (inner.data ++ "\x0a```".data)) =
          btick :: btick :: replaceGo (btick :: "json".data) [] 0
            ('\x0a' :: (inner.data ++ "\x0a```".data)) from rfl]
      rw [show replaceGo (btick :: "json".data) [] 0
            ('\x0a' :: (inner.data ++ "\x0a```".data)) =
          '\x0a' :: replaceGo (btick :: "json".data) [] 0
            (inner.data ++ "\x0a```".data) from rfl]
      rw [replaceGo_pass "json".data inner.data "\x0a```".data h]
      rw [show replaceGo (btick :: "json".data) [] 0 ("\x0a```".data) = "\x0a```".data from rfl]
    rw [hstep1]
    have hstep2 : replaceGo (btick :: []) [] 0
        (btick :: btick :: '\x0a' :: (inner.data ++ "\x0a```".data)) =
        '\x0a' :: (inner.data ++ ['\x0a']) := by
      rw [show replaceGo (btick :: []) [] 0
            (btick :: btick :: '\x0a' :: (inner.data ++ "\x0a```".data)) =
          '\x0a' :: replaceGo (btick :: []) [] 0 (inner.data ++ "\x0a```".data) from rfl]
      rw [replaceGo_pass [] inner.data "\x0a```".data h]
      rw [show replaceGo (btick :: []) [] 0 ("\x0a```".data) = ['\x0a'] from rfl]
    rw [hstep2, pyStrip_wrap]

/-- C6, witness for the amended theorem: the identity part on a plain
JSON object text with no surrounding whitespace, and the fence part on
the same inner text. -/
theorem C6_fence_strip_amended_witness :
    strip_wrappers "\x7b\"a\": 1\x7d" = "\x7b\"a\": 1\x7d"
      ∧ strip_wrappers ("```json\x0a" ++ "\x7b\"a\": 1\x7d" ++ "\x0a```") =
          strip_wrappers "\x7b\"a\": 1\x7d" :=
  ⟨C6_fence_strip_amended.1 "\x7b\"a\": 1\x7d" (by decide) (by decide),
   C6_fence_strip_amended.2 "\x7b\"a\": 1\x7d" (by decide)⟩

/-! ### Claim C9 -/

/-- C9, counterexample: a successful run whose single enrichment fails
produces a final record whose `tmdb_details` is the empty dict — the
record itself carries no poster reference at all (looking up
`poster_url` in it yields nothing), contradicting "never empty or null
in the record itself"; the placeholder is only substituted at render
time. -/
theorem C9_counterexample :
    (get_movie_recommendations (some "k") (some "t")
        (fun _ => DSAttempt.ok "raw" (some (mkEnvelope wContent)))
        (fun _ => TmdbNet.requestExn) "m" "a" 3).2 = Except.ok (some wOut)
    ∧ jsonLookupJ (Json.obj [("title", Json.str "X"), ("tmdb_details", Json.obj [])])
        "tmdb_details" = some (Json.obj [])
    ∧ jsonLookupJ (Json.obj []) "poster_url" = none :=
  ⟨rfl, rfl, rfl⟩

theorem displayedPoster_enrichOne (tmdbKey : Option String) (net : TmdbNet)
    (kvs : List (String × Json)) :
    ∃ u, displayedPoster (enrichOne tmdbKey net (Json.obj kvs)) = Except.ok u
      ∧ u ≠ ""
      ∧ (tmdbValD tmdbKey net (titleD (Json.obj kvs)) = none →
          u = PLACEHOLDER_IMAGE_URL) := by
  cases hv : tmdbValD tmdbKey net (titleD (Json.obj kvs)) with
  | none =>
      refine ⟨PLACEHOLDER_IMAGE_URL, ?_, by decide, fun _ => rfl⟩
      simp [enrichOne, hv, jsonOfDetails, pySetKeyJson, displayedPoster, pyGet,
        jsonLookup_setPair, jsonLookup, Json.truthy]
  | some d =>
      cases hpu : d.poster_url with
      | none =>
          refine ⟨PLACEHOLDER_IMAGE_URL, ?_, by decide, fun hc => by simp [hv] at hc⟩
          simp [enrichOne, hv, jsonOfDetails, hpu, pySetKeyJson, displayedPoster, pyGet,
            jsonLookup_setPair, jsonLookup, Json.truthy]
      | some u0 =>
          by_cases h0 : u0 = ""
          · refine ⟨PLACEHOLDER_IMAGE_URL, ?_, by decide, fun hc => by simp [hv] at hc⟩
            simp [enrichOne, hv, jsonOfDetails, hpu, pySetKeyJson, displayedPoster, pyGet,
              jsonLookup_setPair, jsonLookup, Json.truthy, h0]
          · refine ⟨u0, ?_, h0, fun hc => by simp [hv] at hc⟩
            simp [enrichOne, hv, jsonOfDetails, hpu, pySetKeyJson, displayedPoster, pyGet,
              jsonLookup_setPair, jsonLookup, Json.truthy, h0, pyStr]

/-- C9, amended: the final records themselves may carry a null or
absent poster reference (see the counterexample); the "never empty"
guarantee holds one layer later, at the render block: for every entry
of a successful run the displayed poster URL exists and is non-empty,
and whenever the enrichment failed it is exactly the documented
placeholder URL. -/
theorem C9_placeholder_at_render_amended (dsKey tmdbKey : Option String)
    (attempts : Nat → DSAttempt) (tmdbNet : Nat → TmdbNet)
    (lm la : String) (n : Int) (raw s : String) (data : Json) (ranked : List Json)
    (hkey : keyTruthy dsKey = true)
    (hatt : attempts 0 = DSAttempt.ok raw (some (mkEnvelope s)))
    (hs : s ≠ "")
    (hp : jsonParse (strip_wrappers s) = some data)
    (hc : pyContains data "recommendations" = Except.ok true)
    (hv : pySubscript data "recommendations" = Except.ok (Json.arr ranked))
    (hobj : ∀ r ∈ ranked, isObjB r = true)
    (htm : ∀ j, (tmdbNet j).benign = true) :
    (get_movie_recommendations dsKey tmdbKey attempts tmdbNet lm la n).2 =
        Except.ok (some (enrichPure tmdbKey tmdbNet 0 ranked))
      ∧ (∀ i (hi2 : i < (enrichPure tmdbKey tmdbNet 0 ranked).length),
          ∃ u, displayedPoster ((enrichPure tmdbKey tmdbNet 0 ranked).get ⟨i, hi2⟩) =
              Except.ok u ∧ u ≠ "")
      ∧ (∀ i (hi : i < ranked.length)
            (hi2 : i < (enrichPure tmdbKey tmdbNet 0 ranked).length),
          tmdbValD tmdbKey (tmdbNet i) (titleD (ranked.get ⟨i, hi⟩)) = none →
          displayedPoster ((enrichPure tmdbKey tmdbNet 0 ranked).get ⟨i, hi2⟩) =
            Except.ok PLACEHOLDER_IMAGE_URL) := by
  have hrun := run_success_at0 dsKey tmdbKey attempts tmdbNet lm la n raw s data ranked
    hkey hatt hs hp hc hv hobj htm
  refine ⟨by rw [hrun], ?_, ?_⟩
  · intro i hi2
    have hi : i < ranked.length := by
      rw [← enrichPure_length tmdbKey tmdbNet ranked 0]; exact hi2
    have hg := enrichPure_get tmdbKey tmdbNet ranked 0 i hi hi2
    simp only [Nat.zero_add] at hg
    have hr : isObjB (ranked.get ⟨i, hi⟩) = true :=
      hobj (ranked.get ⟨i, hi⟩) (List.get_mem ranked i hi)
    rw [hg]
    revert hr
    generalize ranked.get ⟨i, hi⟩ = r
    intro hr
    cases r with
    | obj kvs =>
        obtain ⟨u, hu1, hu2, _⟩ := displayedPoster_enrichOne tmdbKey (tmdbNet i) kvs
        exact ⟨u, hu1, hu2⟩
    | null => simp [isObjB] at hr
    | bool b => simp [isObjB] at hr
    | num m e => simp [isObjB] at hr
    | str s2 => simp [isObjB] at hr
    | arr xs => simp [isObjB] at hr
  · intro i hi hi2 hnone
    have hg := enrichPure_get tmdbKey tmdbNet ranked 0 i hi hi2
    simp only [Nat.zero_add] at hg
    have hr : isObjB (ranked.get ⟨i, hi⟩) = true :=
      hobj (ranked.get ⟨i, hi⟩) (List.get_mem ranked i hi)
    rw [hg]
    revert hnone hr
    generalize ranked.get ⟨i, hi⟩ = r
    intro hnone hr
    cases r with
    | obj kvs =>
        obtain ⟨u, hu1, _, hu3⟩ := displayedPoster_enrichOne tmdbKey (tmdbNet i) kvs
        rw [hu1, hu3 hnone]
    | null => simp [isObjB] at hr
    | bool b => simp [isObjB] at hr
    | num m e => simp [isObjB] at hr
    | str s2 => simp [isObjB] at hr
    | arr xs => simp [isObjB] at hr

/-- C9, witness for the amended theorem: the two-item run of the C1
witness, whose first enrichment has a poster and whose second fails. -/
theorem C9_placeholder_at_render_amended_witness :
    (get_movie_recommendations (some "k") (some "t") c1att c1tmdb "m" "a" 3).2 =
        Except.ok (some (enrichPure (some "t") c1tmdb 0 c1ranked))
      ∧ (∀ i (hi2 : i < (enrichPure (some "t") c1tmdb 0 c1ranked).length),
          ∃ u, displayedPoster ((enrichPure (some "t") c1tmdb 0 c1ranked).get ⟨i, hi2⟩) =
              Except.ok u ∧ u ≠ "")
      ∧ (∀ i (hi : i < c1ranked.length)
            (hi2 : i < (enrichPure (some "t") c1tmdb 0 c1ranked).length),
          tmdbValD (some "t") (c1tmdb i) (titleD (c1ranked.get ⟨i, hi⟩)) = none →
          displayedPoster ((enrichPure (some "t") c1tmdb 0 c1ranked).get ⟨i, hi2⟩) =
            Except.ok PLACEHOLDER_IMAGE_URL) :=
  C9_placeholder_at_render_amended (some "k") (some "t") c1att c1tmdb "m" "a" 3
    "raw" c1content c1data c1ranked (by decide) rfl (by decide) rfl rfl rfl
    (by decide) (fun j => by cases j with | zero => rfl | succ j => rfl)

end Chitra
